import Mathlib

/-!
Verification of the pdvzip polyglot builder (src/pdvzip.cpp) against its
natural-language specification.  The C++ program is shallowly embedded:
byte vectors become lists of naturals (every element of the C++
vector of unsigned char is < 256), machine arithmetic is Nat arithmetic
with explicit truncation where the source truncates, and the stateful
pipeline becomes explicit value passing.  Definition names follow the
source where Lean permits.
-/

namespace Pdvzip

set_option maxRecDepth 8000


/-- The seven script-breaking characters, the BAD_CHAR string of PDV_STRUCT. -/
def BAD_CHAR : List Nat := [0x22, 0x27, 0x28, 0x29, 0x3B, 0x3E, 0x60]

/-- MAX_FILE_SIZE of PDV_STRUCT: 200 MiB cap on the combined file size. -/
def MAX_FILE_SIZE : Nat := 209715200

/-- Contiguous n-byte window of a buffer starting at index i, the
half-open byte range [i, i+n) that C++ iterator pairs denote. -/
def slice (l : List Nat) (i n : Nat) : List Nat := (l.drop i).take n

/-- Big-endian 16-bit read: source expression (v[i] << 8) | v[i+1].
On bytes (< 256) the bitwise or of disjoint shifted bytes is addition. -/
def rd16BE (l : List Nat) (i : Nat) : Nat := l.getD i 0 * 256 + l.getD (i + 1) 0

/-- Big-endian 32-bit read: source expression
(v[i] << 24) | (v[i+1] << 16) | (v[i+2] << 8) | v[i+3], with the same
or-as-addition reading on bytes. -/
def rd32BE (l : List Nat) (i : Nat) : Nat :=
  l.getD i 0 * 16777216 + l.getD (i + 1) 0 * 65536 + l.getD (i + 2) 0 * 256 + l.getD (i + 3) 0

/-- Little-endian 16-bit read of the field whose LOW byte sits at index i. -/
def rd16LE (l : List Nat) (i : Nat) : Nat := l.getD i 0 + l.getD (i + 1) 0 * 256

/-- Little-endian 32-bit read of the field whose LOW byte sits at index i. -/
def rd32LE (l : List Nat) (i : Nat) : Nat :=
  l.getD i 0 + l.getD (i + 1) 0 * 256 + l.getD (i + 2) 0 * 65536 + l.getD (i + 3) 0 * 16777216

/-- The four bytes of v, most significant first, each the source
expression (v >> k) & 0xff written as truncated division. -/
def be32Bytes (v : Nat) : List Nat :=
  [v / 16777216 % 256, v / 65536 % 256, v / 256 % 256, v % 256]

/-- Value_Updater of the source: writes the low `bits` bits of NEW_VALUE
into the buffer one byte per step, most significant byte first, moving the
index up (big endian) or down (little endian).  The loop body is
vec[idx] = (NEW_VALUE >> (bits -= 8)) & 0xff; the & 0xff is % 256.
List.set ignores out-of-range indices (the C++ indexing there is UB). -/
def Value_Updater (vec : List Nat) (idx : Nat) (NEW_VALUE : Nat) (bits : Nat)
    (big_endian : Bool) : List Nat :=
  match bits with
  | 0 => vec
  | bits2 + 8 =>
    if big_endian then
      Value_Updater (vec.set idx ((NEW_VALUE >>> bits2) % 256)) (idx + 1) NEW_VALUE bits2
        big_endian
    else
      Value_Updater (vec.set idx ((NEW_VALUE >>> bits2) % 256)) (idx - 1) NEW_VALUE bits2
        big_endian
  | _ => vec

lemma value_updater_zero (vec : List Nat) (i v : Nat) (e : Bool) :
    Value_Updater vec i v 0 e = vec := rfl

lemma value_updater_step (vec : List Nat) (i v bits2 : Nat) (e : Bool) :
    Value_Updater vec i v (bits2 + 8) e =
      if e then
        Value_Updater (vec.set i ((v >>> bits2) % 256)) (i + 1) v bits2 e
      else
        Value_Updater (vec.set i ((v >>> bits2) % 256)) (i - 1) v bits2 e := by
  cases e <;> rfl

lemma getD_set_self (l : List Nat) (i : Nat) (a : Nat) (h : i < l.length) :
    (l.set i a).getD i 0 = a := by
  simp [List.getD, List.getElem?_set_self, h]

lemma getD_set_ne (l : List Nat) (i j : Nat) (a : Nat) (h : i ≠ j) :
    (l.set i a).getD j 0 = l.getD j 0 := by
  simp [List.getD, List.getElem?_set_ne h]

lemma length_value_updater (vec : List Nat) (idx v bits : Nat) (e : Bool) :
    (Value_Updater vec idx v bits e).length = vec.length := by
  induction bits using Nat.strong_induction_on generalizing vec idx with
  | _ bits ih =>
    match bits with
    | 0 => rfl
    | bits2 + 8 =>
      rw [value_updater_step]
      cases e
      · simp only [Bool.false_eq_true, if_false]
        rw [ih bits2 (by omega)]
        simp
      · simp only [if_true]
        rw [ih bits2 (by omega)]
        simp
    | 1 => rfl
    | 2 => rfl
    | 3 => rfl
    | 4 => rfl
    | 5 => rfl
    | 6 => rfl
    | 7 => rfl

lemma value_updater_16_true (vec : List Nat) (i v : Nat) :
    Value_Updater vec i v 16 true = (vec.set i (v >>> 8 % 256)).set (i + 1) (v % 256) := rfl

lemma value_updater_32_true (vec : List Nat) (i v : Nat) :
    Value_Updater vec i v 32 true =
      ((((vec.set i (v >>> 24 % 256)).set (i + 1) (v >>> 16 % 256)).set
        (i + 2) (v >>> 8 % 256)).set (i + 3) (v % 256)) := rfl

lemma value_updater_16_false (vec : List Nat) (i v : Nat) :
    Value_Updater vec i v 16 false = (vec.set i (v >>> 8 % 256)).set (i - 1) (v % 256) := rfl

lemma value_updater_32_false (vec : List Nat) (i v : Nat) :
    Value_Updater vec i v 32 false =
      ((((vec.set i (v >>> 24 % 256)).set (i - 1) (v >>> 16 % 256)).set
        (i - 2) (v >>> 8 % 256)).set (i - 3) (v % 256)) := by
  have h : Value_Updater vec i v 32 false =
      ((((vec.set i (v >>> 24 % 256)).set (i - 1) (v >>> 16 % 256)).set
        (i - 1 - 1) (v >>> 8 % 256)).set (i - 1 - 1 - 1) (v % 256)) := rfl
  rw [h, show i - 1 - 1 - 1 = i - 3 from by omega, show i - 1 - 1 = i - 2 from by omega]

/-- Open_Files size gate: the expression assigned to file_size_check,
with MIN_IMAGE_SIZE = 68 and MIN_ZIP_SIZE = 40 inlined as in the source. -/
def file_size_check (image_size zip_size : Nat) : Bool :=
  decide (image_size > 68) && decide (zip_size > 40) &&
    decide (MAX_FILE_SIZE ≥ image_size + zip_size)

/-- C7: the byte-field writer Value_Updater, in big-endian mode with width
w ∈ {16,32}, stores the w-bit value at bytes i, i+1, ..., i+w/8-1 most
significant first; in little-endian mode at bytes i, i-1, ..., i-w/8+1 most
significant first; and reading the written field back in the corresponding
byte order recovers the value mod 2^w. -/
theorem C7_value_updater_endianness :
    ∀ (vec : List Nat) (i v : Nat),
      (Value_Updater vec i v 16 true = (vec.set i (v >>> 8 % 256)).set (i + 1) (v % 256)) ∧
      (Value_Updater vec i v 32 true =
        ((((vec.set i (v >>> 24 % 256)).set (i + 1) (v >>> 16 % 256)).set
          (i + 2) (v >>> 8 % 256)).set (i + 3) (v % 256))) ∧
      (Value_Updater vec i v 16 false = (vec.set i (v >>> 8 % 256)).set (i - 1) (v % 256)) ∧
      (Value_Updater vec i v 32 false =
        ((((vec.set i (v >>> 24 % 256)).set (i - 1) (v >>> 16 % 256)).set
          (i - 2) (v >>> 8 % 256)).set (i - 3) (v % 256))) ∧
      (i + 1 < vec.length → rd16BE (Value_Updater vec i v 16 true) i = v % 2 ^ 16) ∧
      (i + 3 < vec.length → rd32BE (Value_Updater vec i v 32 true) i = v % 2 ^ 32) ∧
      (3 ≤ i → i < vec.length →
        rd32LE (Value_Updater vec i v 32 false) (i - 3) = v % 2 ^ 32) := by
  intro vec i v
  refine ⟨value_updater_16_true vec i v, value_updater_32_true vec i v,
    value_updater_16_false vec i v, value_updater_32_false vec i v, ?_, ?_, ?_⟩
  · intro hlt
    rw [value_updater_16_true, rd16BE]
    rw [getD_set_ne _ _ _ _ (by omega), getD_set_self _ _ _ (by simpa using by omega),
      getD_set_self _ _ _ (by simpa using by omega)]
    simp only [Nat.shiftRight_eq_div_pow]
    have h16 : (2 : Nat) ^ 16 = 65536 := by norm_num
    have h8 : (2 : Nat) ^ 8 = 256 := by norm_num
    rw [h16, h8]
    omega
  · intro hlt
    rw [value_updater_32_true, rd32BE]
    rw [getD_set_ne _ _ _ _ (by omega), getD_set_ne _ _ _ _ (by omega),
      getD_set_ne _ _ _ _ (by omega), getD_set_self _ _ _ (by simpa using by omega)]
    rw [getD_set_ne _ _ _ _ (by omega), getD_set_ne _ _ _ _ (by omega),
      getD_set_self _ _ _ (by simpa using by omega)]
    rw [getD_set_ne _ _ _ _ (by omega), getD_set_self _ _ _ (by simpa using by omega)]
    rw [getD_set_self _ _ _ (by simpa using by omega)]
    simp only [Nat.shiftRight_eq_div_pow]
    have h32 : (2 : Nat) ^ 32 = 4294967296 := by norm_num
    have h24 : (2 : Nat) ^ 24 = 16777216 := by norm_num
    have h16 : (2 : Nat) ^ 16 = 65536 := by norm_num
    have h8 : (2 : Nat) ^ 8 = 256 := by norm_num
    rw [h32, h24, h16, h8]
    omega
  · intro h3 hlt
    obtain ⟨k, rfl⟩ : ∃ k, i = k + 3 := ⟨i - 3, by omega⟩
    rw [value_updater_32_false, rd32LE]
    simp only [Nat.add_sub_cancel, show k + 3 - 1 = k + 2 from by omega,
      show k + 3 - 2 = k + 1 from by omega]
    rw [getD_set_self _ _ _ (by simpa using by omega)]
    rw [getD_set_ne _ _ _ _ (by omega), getD_set_self _ _ _ (by simpa using by omega)]
    rw [getD_set_ne _ _ _ _ (by omega), getD_set_ne _ _ _ _ (by omega),
      getD_set_self _ _ _ (by simpa using by omega)]
    rw [getD_set_ne _ _ _ _ (by omega), getD_set_ne _ _ _ _ (by omega),
      getD_set_ne _ _ _ _ (by omega), getD_set_self _ _ _ (by simpa using by omega)]
    simp only [Nat.shiftRight_eq_div_pow]
    have h32 : (2 : Nat) ^ 32 = 4294967296 := by norm_num
    have h24 : (2 : Nat) ^ 24 = 16777216 := by norm_num
    have h16 : (2 : Nat) ^ 16 = 65536 := by norm_num
    have h8 : (2 : Nat) ^ 8 = 256 := by norm_num
    rw [h32, h24, h16, h8]
    omega

/-- Witness for C7 at a concrete buffer, index and value. -/
theorem C7_value_updater_endianness_witness :
    rd32BE (Value_Updater [0, 0, 0, 0, 0, 0, 0, 0] 4 3735928559 32 true) 4
        = 3735928559 % 2 ^ 32 ∧
    rd32LE (Value_Updater [0, 0, 0, 0, 0, 0, 0, 0] 4 3735928559 32 false) 1
        = 3735928559 % 2 ^ 32 :=
  ⟨(C7_value_updater_endianness [0, 0, 0, 0, 0, 0, 0, 0] 4 3735928559).2.2.2.2.2.1
      (by decide),
   (C7_value_updater_endianness [0, 0, 0, 0, 0, 0, 0, 0] 4 3735928559).2.2.2.2.2.2
      (by decide) (by decide)⟩

/-- C4 counterexample: the claim says a PNG of exactly 68 bytes and a ZIP of
exactly 40 bytes both pass the initial size check; the source uses strict
comparisons, so both boundary sizes fail it. -/
theorem C4_cex_boundary_sizes_fail : file_size_check 68 40 = false := by decide

/-- C4 amended: the initial size check fails exactly when the PNG input is
at most 68 bytes, the ZIP input is at most 40 bytes, or their combined size
exceeds 209715200 bytes; a 69-byte PNG with a 41-byte ZIP passes. -/
theorem C4_amended_size_gate :
    (∀ image_size zip_size : Nat,
        file_size_check image_size zip_size = false ↔
          image_size ≤ 68 ∨ zip_size ≤ 40 ∨ image_size + zip_size > MAX_FILE_SIZE) ∧
    file_size_check 69 41 = true := by
  constructor
  · intro i z
    simp only [file_size_check, MAX_FILE_SIZE, Bool.and_eq_false_iff,
      decide_eq_false_iff_not, not_lt, not_le]
    omega
  · decide

/-- Does pat occur in l starting exactly at position i?  This is the
matching step of std::search over byte iterators. -/
def matchesAt (l : List Nat) (i : Nat) (pat : List Nat) : Bool :=
  decide (pat = slice l i pat.length)

/-- Fuel-driven scan underlying findFrom; the fuel starts at
l.length + 1 - s and decreases by exactly one per position. -/
def findFromAux (l pat : List Nat) (s : Nat) : Nat → Nat
  | 0 => l.length
  | fuel + 1 =>
    if l.length < s + pat.length then l.length
    else if matchesAt l s pat then s
    else findFromAux l pat (s + 1) fuel

/-- std::search over [begin + s, end): index of the first occurrence of pat
at a position at least s, or l.length when there is none (std::search
returns the end iterator). -/
def findFrom (l pat : List Nat) (s : Nat) : Nat :=
  findFromAux l pat s (l.length + 1 - s)

/-- The one-step unfolding of findFrom, the shape of the C++ scan. -/
lemma findFrom_unfold (l pat : List Nat) (s : Nat) :
    findFrom l pat s =
      if l.length < s + pat.length then l.length
      else if matchesAt l s pat then s
      else findFrom l pat (s + 1) := by
  unfold findFrom
  cases hfuel : l.length + 1 - s with
  | zero =>
    have h1 : l.length < s + pat.length := by omega
    rw [if_pos h1]
    rfl
  | succ f =>
    show (if l.length < s + pat.length then l.length
      else if matchesAt l s pat then s else findFromAux l pat (s + 1) f) = _
    have hf : f = l.length + 1 - (s + 1) := by omega
    rw [hf]

lemma length_slice (l : List Nat) (i n : Nat) :
    (slice l i n).length = min n (l.length - i) := by
  simp [slice]

lemma getElem?_slice (l : List Nat) (i n j : Nat) :
    (slice l i n)[j]? = if j < n then l[i + j]? else none := by
  unfold slice
  rw [List.getElem?_take, List.getElem?_drop]

lemma matchesAt_true_iff (l : List Nat) (i : Nat) (pat : List Nat) :
    matchesAt l i pat = true ↔ slice l i pat.length = pat := by
  unfold matchesAt
  rw [decide_eq_true_iff]
  exact eq_comm

lemma matchesAt_length (l : List Nat) (i : Nat) (pat : List Nat)
    (h : matchesAt l i pat = true) (hp : pat ≠ []) : i + pat.length ≤ l.length := by
  rw [matchesAt_true_iff] at h
  have hl := congrArg List.length h
  rw [length_slice] at hl
  rcases Nat.lt_or_ge l.length i with h2 | h2
  swap
  · omega
  · exfalso
    apply hp
    apply List.eq_nil_of_length_eq_zero
    omega

lemma getD_of_matchesAt (l : List Nat) (i : Nat) (pat : List Nat) (j : Nat)
    (h : matchesAt l i pat = true) (hj : j < pat.length) :
    l.getD (i + j) 0 = pat.getD j 0 := by
  rw [matchesAt_true_iff] at h
  have hb : i + pat.length ≤ l.length := by
    have := matchesAt_length l i pat (by rw [matchesAt_true_iff]; exact h)
      (by intro hnil; rw [hnil] at hj; simp at hj)
    exact this
  have := congrArg (fun t => t[j]?) h
  simp only [getElem?_slice, if_pos hj] at this
  have hij : i + j < l.length := by omega
  rw [List.getElem?_eq_getElem hij] at this
  simp only [List.getD, List.get?_eq_getElem?, List.getElem?_eq_getElem hij, ← this,
    Option.getD_some]

lemma matchesAt_eq_of_agree (l l2 : List Nat) (i : Nat) (pat : List Nat)
    (hlen : l2.length = l.length)
    (hag : ∀ u, i ≤ u → u < i + pat.length → l2.getD u 0 = l.getD u 0) :
    matchesAt l2 i pat = matchesAt l i pat := by
  suffices h : slice l2 i pat.length = slice l i pat.length by
    unfold matchesAt
    rw [h]
  apply List.ext_getElem?
  intro j
  rw [getElem?_slice, getElem?_slice]
  by_cases hj : j < pat.length
  · rw [if_pos hj, if_pos hj]
    rcases Nat.lt_or_ge (i + j) l.length with h2 | h2
    · have h3 : i + j < l2.length := by omega
      rw [List.getElem?_eq_getElem h2, List.getElem?_eq_getElem h3]
      have := hag (i + j) (by omega) (by omega)
      simp only [List.getD, List.get?_eq_getElem?, List.getElem?_eq_getElem h2,
        List.getElem?_eq_getElem h3, Option.getD_some] at this
      simp [this]
    · rw [List.getElem?_eq_none (by omega), List.getElem?_eq_none (by omega)]
  · rw [if_neg hj, if_neg hj]

lemma matchesAt_nil (l : List Nat) (s : Nat) : matchesAt l s [] = true := by
  simp [matchesAt, slice]

lemma pat_length_pos_of_not_matchesAt (l : List Nat) (s : Nat) (pat : List Nat)
    (h : ¬matchesAt l s pat = true) : 0 < pat.length := by
  rcases Nat.eq_zero_or_pos pat.length with h0 | h0
  · exact absurd (by rw [List.eq_nil_of_length_eq_zero h0]; exact matchesAt_nil l s) h
  · exact h0

lemma findFrom_le (l pat : List Nat) (s : Nat) : findFrom l pat s ≤ l.length := by
  have H : ∀ n s, n = l.length - s → findFrom l pat s ≤ l.length := by
    intro n
    induction n using Nat.strong_induction_on with
    | _ n ih =>
      intro s hn
      rw [findFrom_unfold]
      by_cases h1 : l.length < s + pat.length
      · simp [h1]
      · rw [if_neg h1]
        by_cases h2 : matchesAt l s pat = true
        · rw [if_pos h2]
          omega
        · rw [if_neg h2]
          have hp := pat_length_pos_of_not_matchesAt l s pat h2
          exact ih (l.length - (s + 1)) (by omega) (s + 1) rfl
  exact H _ s rfl

lemma findFrom_ge (l pat : List Nat) (s : Nat) (hs : s ≤ l.length) :
    s ≤ findFrom l pat s := by
  have H : ∀ n s, n = l.length - s → s ≤ l.length → s ≤ findFrom l pat s := by
    intro n
    induction n using Nat.strong_induction_on with
    | _ n ih =>
      intro s hn hs
      rw [findFrom_unfold]
      by_cases h1 : l.length < s + pat.length
      · rw [if_pos h1]
        exact hs
      · rw [if_neg h1]
        by_cases h2 : matchesAt l s pat = true
        · rw [if_pos h2]
        · rw [if_neg h2]
          have hp := pat_length_pos_of_not_matchesAt l s pat h2
          have := ih (l.length - (s + 1)) (by omega) (s + 1) rfl (by omega)
          omega
  exact H _ s rfl hs

lemma findFrom_min (l pat : List Nat) (s : Nat) :
    ∀ t, s ≤ t → t < findFrom l pat s → matchesAt l t pat = false := by
  have H : ∀ n s, n = l.length - s →
      ∀ t, s ≤ t → t < findFrom l pat s → matchesAt l t pat = false := by
    intro n
    induction n using Nat.strong_induction_on with
    | _ n ih =>
      intro s hn t hst ht
      rw [findFrom_unfold] at ht
      by_cases h1 : l.length < s + pat.length
      · rw [if_pos h1] at ht
        by_cases hp : pat = []
        · subst hp
          simp at h1
          omega
        · rcases Bool.eq_false_or_eq_true (matchesAt l t pat) with htr | hf
          · have := matchesAt_length l t pat htr hp
            omega
          · exact hf
      · rw [if_neg h1] at ht
        by_cases h2 : matchesAt l s pat = true
        · rw [if_pos h2] at ht
          omega
        · rw [if_neg h2] at ht
          rcases Nat.eq_or_lt_of_le hst with rfl | hlt
          · exact Bool.eq_false_iff.mpr h2
          · have hp := pat_length_pos_of_not_matchesAt l s pat h2
            exact ih (l.length - (s + 1)) (by omega) (s + 1) rfl t hlt ht
  exact H _ s rfl

lemma findFrom_eq_of (l pat : List Nat) (s r : Nat) (hsr : s ≤ r)
    (hmatch : matchesAt l r pat = true) (hbound : r + pat.length ≤ l.length)
    (hmin : ∀ t, s ≤ t → t < r → matchesAt l t pat = false) :
    findFrom l pat s = r := by
  have H : ∀ n s, n = r - s → s ≤ r →
      (∀ t, s ≤ t → t < r → matchesAt l t pat = false) → findFrom l pat s = r := by
    intro n
    induction n using Nat.strong_induction_on with
    | _ n ih =>
      intro s hn hs hmn
      rw [findFrom_unfold]
      rw [if_neg (by omega)]
      rcases Nat.eq_or_lt_of_le hs with rfl | hlt
      · rw [if_pos hmatch]
      · rw [if_neg (by rw [hmn s (le_refl s) hlt]; exact Bool.false_ne_true)]
        exact ih (r - (s + 1)) (by omega) (s + 1) rfl (by omega)
          (fun t h1 h2 => hmn t (by omega) h2)
  exact H _ s rfl hsr hmin

def Crc_Table : List Nat := [
  0x00000000, 0x77073096, 0xEE0E612C, 0x990951BA, 0x076DC419, 0x706AF48F, 0xE963A535, 0x9E6495A3,
  0x0EDB8832, 0x79DCB8A4, 0xE0D5E91E, 0x97D2D988, 0x09B64C2B, 0x7EB17CBD, 0xE7B82D07, 0x90BF1D91,
  0x1DB71064, 0x6AB020F2, 0xF3B97148, 0x84BE41DE, 0x1ADAD47D, 0x6DDDE4EB, 0xF4D4B551, 0x83D385C7,
  0x136C9856, 0x646BA8C0, 0xFD62F97A, 0x8A65C9EC, 0x14015C4F, 0x63066CD9, 0xFA0F3D63, 0x8D080DF5,
  0x3B6E20C8, 0x4C69105E, 0xD56041E4, 0xA2677172, 0x3C03E4D1, 0x4B04D447, 0xD20D85FD, 0xA50AB56B,
  0x35B5A8FA, 0x42B2986C, 0xDBBBC9D6, 0xACBCF940, 0x32D86CE3, 0x45DF5C75, 0xDCD60DCF, 0xABD13D59,
  0x26D930AC, 0x51DE003A, 0xC8D75180, 0xBFD06116, 0x21B4F4B5, 0x56B3C423, 0xCFBA9599, 0xB8BDA50F,
  0x2802B89E, 0x5F058808, 0xC60CD9B2, 0xB10BE924, 0x2F6F7C87, 0x58684C11, 0xC1611DAB, 0xB6662D3D,
  0x76DC4190, 0x01DB7106, 0x98D220BC, 0xEFD5102A, 0x71B18589, 0x06B6B51F, 0x9FBFE4A5, 0xE8B8D433,
  0x7807C9A2, 0x0F00F934, 0x9609A88E, 0xE10E9818, 0x7F6A0DBB, 0x086D3D2D, 0x91646C97, 0xE6635C01,
  0x6B6B51F4, 0x1C6C6162, 0x856530D8, 0xF262004E, 0x6C0695ED, 0x1B01A57B, 0x8208F4C1, 0xF50FC457,
  0x65B0D9C6, 0x12B7E950, 0x8BBEB8EA, 0xFCB9887C, 0x62DD1DDF, 0x15DA2D49, 0x8CD37CF3, 0xFBD44C65,
  0x4DB26158, 0x3AB551CE, 0xA3BC0074, 0xD4BB30E2, 0x4ADFA541, 0x3DD895D7, 0xA4D1C46D, 0xD3D6F4FB,
  0x4369E96A, 0x346ED9FC, 0xAD678846, 0xDA60B8D0, 0x44042D73, 0x33031DE5, 0xAA0A4C5F, 0xDD0D7CC9,
  0x5005713C, 0x270241AA, 0xBE0B1010, 0xC90C2086, 0x5768B525, 0x206F85B3, 0xB966D409, 0xCE61E49F,
  0x5EDEF90E, 0x29D9C998, 0xB0D09822, 0xC7D7A8B4, 0x59B33D17, 0x2EB40D81, 0xB7BD5C3B, 0xC0BA6CAD,
  0xEDB88320, 0x9ABFB3B6, 0x03B6E20C, 0x74B1D29A, 0xEAD54739, 0x9DD277AF, 0x04DB2615, 0x73DC1683,
  0xE3630B12, 0x94643B84, 0x0D6D6A3E, 0x7A6A5AA8, 0xE40ECF0B, 0x9309FF9D, 0x0A00AE27, 0x7D079EB1,
  0xF00F9344, 0x8708A3D2, 0x1E01F268, 0x6906C2FE, 0xF762575D, 0x806567CB, 0x196C3671, 0x6E6B06E7,
  0xFED41B76, 0x89D32BE0, 0x10DA7A5A, 0x67DD4ACC, 0xF9B9DF6F, 0x8EBEEFF9, 0x17B7BE43, 0x60B08ED5,
  0xD6D6A3E8, 0xA1D1937E, 0x38D8C2C4, 0x4FDFF252, 0xD1BB67F1, 0xA6BC5767, 0x3FB506DD, 0x48B2364B,
  0xD80D2BDA, 0xAF0A1B4C, 0x36034AF6, 0x41047A60, 0xDF60EFC3, 0xA867DF55, 0x316E8EEF, 0x4669BE79,
  0xCB61B38C, 0xBC66831A, 0x256FD2A0, 0x5268E236, 0xCC0C7795, 0xBB0B4703, 0x220216B9, 0x5505262F,
  0xC5BA3BBE, 0xB2BD0B28, 0x2BB45A92, 0x5CB36A04, 0xC2D7FFA7, 0xB5D0CF31, 0x2CD99E8B, 0x5BDEAE1D,
  0x9B64C2B0, 0xEC63F226, 0x756AA39C, 0x026D930A, 0x9C0906A9, 0xEB0E363F, 0x72076785, 0x05005713,
  0x95BF4A82, 0xE2B87A14, 0x7BB12BAE, 0x0CB61B38, 0x92D28E9B, 0xE5D5BE0D, 0x7CDCEFB7, 0x0BDBDF21,
  0x86D3D2D4, 0xF1D4E242, 0x68DDB3F8, 0x1FDA836E, 0x81BE16CD, 0xF6B9265B, 0x6FB077E1, 0x18B74777,
  0x88085AE6, 0xFF0F6A70, 0x66063BCA, 0x11010B5C, 0x8F659EFF, 0xF862AE69, 0x616BFFD3, 0x166CCF45,
  0xA00AE278, 0xD70DD2EE, 0x4E048354, 0x3903B3C2, 0xA7672661, 0xD06016F7, 0x4969474D, 0x3E6E77DB,
  0xAED16A4A, 0xD9D65ADC, 0x40DF0B66, 0x37D83BF0, 0xA9BCAE53, 0xDEBB9EC5, 0x47B2CF7F, 0x30B5FFE9,
  0xBDBDF21C, 0xCABAC28A, 0x53B39330, 0x24B4A3A6, 0xBAD03605, 0xCDD70693, 0x54DE5729, 0x23D967BF,
  0xB3667A2E, 0xC4614AB8, 0x5D681B02, 0x2A6F2B94, 0xB40BBE37, 0xC30C8EA1, 0x5A05DF1B, 0x2D02EF8D]

/-- Crc_Update of the source: one table-lookup step per byte, starting from
the given running register; (x) & 0xff is % 256. -/
def Crc_Update (crc : Nat) (buf : List Nat) : Nat :=
  buf.foldl (fun c b => Crc_Table.getD ((c ^^^ b) % 256) 0 ^^^ (c >>> 8)) crc

/-- Crc of the source: PNG CRC of a byte range. -/
def Crc (buf : List Nat) : Nat := Crc_Update 0xffffffff buf ^^^ 0xffffffff

/-- PNG header signature checked against the first four bytes. -/
def PNG_TOP_SIG : List Nat := [0x89, 0x50, 0x4E, 0x47]

/-- PNG end signature checked against the last eight bytes. -/
def PNG_END_SIG : List Nat := [0x49, 0x45, 0x4E, 0x44, 0xAE, 0x42, 0x60, 0x82]

/-- Image color type byte at index 25; value 6 (truecolor with alpha) is
treated as 2 (truecolor), as in the source ternary. -/
def PNG_COLOR_TYPE (img : List Nat) : Nat :=
  if img.getD 25 0 = 6 then 2 else img.getD 25 0

/-- Width: source expression Image_Vec[18] << 8 | Image_Vec[19]. -/
def IMAGE_WIDTH_DIMS (img : List Nat) : Nat := rd16BE img 18

/-- Height: source expression Image_Vec[22] << 8 | Image_Vec[23]. -/
def IMAGE_HEIGHT_DIMS (img : List Nat) : Nat := rd16BE img 22

/-- VALID_COLOR_TYPE of Check_Image_File: indexed (3) or truecolor (2,
with 6 already folded to 2). -/
def VALID_COLOR_TYPE (img : List Nat) : Bool :=
  if PNG_COLOR_TYPE img = 3 then true
  else if PNG_COLOR_TYPE img = 2 then true
  else false

/-- VALID_IMAGE_DIMS of Check_Image_File: the source ternary chain with
MAX_TRUECOLOR_DIMS = 899, MAX_INDEXED_COLOR_DIMS = 4096, MIN_DIMS = 68. -/
def VALID_IMAGE_DIMS (img : List Nat) : Bool :=
  if PNG_COLOR_TYPE img = 2 ∧ 899 ≥ IMAGE_WIDTH_DIMS img ∧ 899 ≥ IMAGE_HEIGHT_DIMS img ∧
      IMAGE_WIDTH_DIMS img ≥ 68 ∧ IMAGE_HEIGHT_DIMS img ≥ 68 then true
  else if PNG_COLOR_TYPE img = 3 ∧ 4096 ≥ IMAGE_WIDTH_DIMS img ∧
      4096 ≥ IMAGE_HEIGHT_DIMS img ∧ IMAGE_WIDTH_DIMS img ≥ 68 ∧
      IMAGE_HEIGHT_DIMS img ≥ 68 then true
  else false

/-- The IHDR bad-character scan of Check_Image_File: the while loop checks
indices 19 through 32 against each of the seven BAD_CHAR bytes. -/
def ihdr_bad_char_found (img : List Nat) : Bool :=
  (List.range' 19 14).any (fun idx => BAD_CHAR.any (fun b => decide (img.getD idx 0 = b)))

/-- Diagnostics of the pipeline, one per distinct error exit. -/
inductive PdvErr where
  | notPng
  | ihdrBadChar
  | colorType
  | dims
  | idatCrc
  | missingPlte
  | notZip
  | zipNameShort
  | sizeBounds
  | scriptSize
deriving DecidableEq

/-- The validation part of Check_Image_File in source order: PNG signatures,
bad-character scan of the IHDR range, color type, dimensions.  The
color-type message takes precedence over dimensions, as in the source
conditional. -/
def Check_Image_File_checks (img : List Nat) : Option PdvErr :=
  if ¬(slice img 0 4 = PNG_TOP_SIG ∧ slice img (img.length - 8) 8 = PNG_END_SIG) then
    some .notPng
  else if ihdr_bad_char_found img then some .ihdrBadChar
  else if ¬VALID_COLOR_TYPE img = true then some .colorType
  else if ¬VALID_IMAGE_DIMS img = true then some .dims
  else none

/-- An 899 x 899 truecolor IHDR prefix with valid signatures. -/
def img899 : List Nat :=
  [0x89, 0x50, 0x4E, 0x47, 0x0D, 0x0A, 0x1A, 0x0A,
   0x00, 0x00, 0x00, 0x0D, 0x49, 0x48, 0x44, 0x52,
   0x00, 0x00, 0x03, 0x83, 0x00, 0x00, 0x03, 0x83, 0x08, 0x02, 0x00, 0x00, 0x00,
   0x00, 0x00, 0x00, 0x00,
   0x00, 0x00, 0x00, 0x00, 0x49, 0x45, 0x4E, 0x44, 0xAE, 0x42, 0x60, 0x82]

/-- The same image with 900 x 900 dimensions. -/
def img900 : List Nat :=
  [0x89, 0x50, 0x4E, 0x47, 0x0D, 0x0A, 0x1A, 0x0A,
   0x00, 0x00, 0x00, 0x0D, 0x49, 0x48, 0x44, 0x52,
   0x00, 0x00, 0x03, 0x84, 0x00, 0x00, 0x03, 0x84, 0x08, 0x02, 0x00, 0x00, 0x00,
   0x00, 0x00, 0x00, 0x00,
   0x00, 0x00, 0x00, 0x00, 0x49, 0x45, 0x4E, 0x44, 0xAE, 0x42, 0x60, 0x82]

/-- C8: a truecolor image (color type 2, with 6 folded to 2) passes the
dimension check exactly when width and height, the 16-bit big-endian values
at indices 18-19 and 22-23, both lie in [68, 899]; the concrete 899 x 899
truecolor image passes and 900 x 900 fails with the dimension diagnostic. -/
theorem C8_truecolor_dimension_window :
    (∀ img : List Nat, PNG_COLOR_TYPE img = 2 →
        (VALID_IMAGE_DIMS img = true ↔
          68 ≤ IMAGE_WIDTH_DIMS img ∧ IMAGE_WIDTH_DIMS img ≤ 899 ∧
          68 ≤ IMAGE_HEIGHT_DIMS img ∧ IMAGE_HEIGHT_DIMS img ≤ 899)) ∧
    VALID_IMAGE_DIMS img899 = true ∧
    Check_Image_File_checks img900 = some PdvErr.dims := by
  refine ⟨?_, by decide, by decide⟩
  intro img hct
  unfold VALID_IMAGE_DIMS
  rw [hct]
  split_ifs with h1 h2
  · simp only [true_iff]
    omega
  · exfalso
    omega
  · simp only [Bool.false_eq_true, false_iff]
    omega

/-- Witness for C8 at the concrete 899 x 899 truecolor image. -/
theorem C8_truecolor_dimension_window_witness :
    VALID_IMAGE_DIMS img899 = true ↔
      68 ≤ IMAGE_WIDTH_DIMS img899 ∧ IMAGE_WIDTH_DIMS img899 ≤ 899 ∧
      68 ≤ IMAGE_HEIGHT_DIMS img899 ∧ IMAGE_HEIGHT_DIMS img899 ≤ 899 :=
  C8_truecolor_dimension_window.1 img899 (by decide)

/-- Diagnostics of the command-line validation in main. -/
inductive ArgErr where
  | invalidExt
  | invalidChars
deriving DecidableEq

/-- Character class of the source regular expression, with the whitespace
escape denoting the ASCII whitespace of the C locale used by std::regex. -/
def allowed_char (c : Char) : Bool :=
  c.isAlpha || c.isDigit || c == '.' || c == '_' || c == '\\' || c == '-' || c == '/' ||
    c == ' ' || c == '\t' || c == '\n' || c == '\r' || c == '\x0b' || c == '\x0c'

/-- Semantics of regex_match with the source pattern: an optional group of
a dot followed by class characters, a mandatory nonempty run of class
characters, and an optional group of a dot followed by letters or digits.
Every piece draws its characters from (a subset of) the single class
recognised by allowed_char, the two outer groups may be empty and the
middle piece can absorb any nonempty class string, so the pattern has a
full match exactly on the nonempty strings over the class. -/
def REG_EXP_match (s : List Char) : Bool :=
  decide (s.length ≠ 0) && s.all allowed_char

/-- GET_PNG_EXT and GET_ZIP_EXT of main: the last three characters when the
name is longer than two characters, the whole name otherwise. -/
def GET_FILE_EXT (name : List Char) : List Char :=
  if name.length > 2 then name.drop (name.length - 3) else name

/-- The argument validation of main: extension filter plus regex filter;
the extension message takes precedence, as in the source conditional. -/
def validate_args (image_name zip_name : List Char) : Option ArgErr :=
  if GET_FILE_EXT image_name ≠ ['p', 'n', 'g'] ∨ GET_FILE_EXT zip_name ≠ ['z', 'i', 'p'] ∨
      ¬REG_EXP_match image_name = true ∨ ¬REG_EXP_match zip_name = true then
    some (if GET_FILE_EXT image_name ≠ ['p', 'n', 'g'] ∨
        GET_FILE_EXT zip_name ≠ ['z', 'i', 'p'] then .invalidExt else .invalidChars)
  else none

/-- C9 counterexample: the cover path "apng" does not end in ".png" (there
is no dot), yet argument validation passes together with the zip path
"azip", against the claim that validation passes only for paths ending in
".png" and ".zip". -/
theorem C9_cex_extension_without_dot :
    validate_args ['a', 'p', 'n', 'g'] ['a', 'z', 'i', 'p'] = none := by decide

/-- C9 amended: validation passes exactly when the cover path has last
three characters png, the zip path has last three characters zip (no dot
required), and both match the character-class regex; every cover path whose
last three characters are not png fails with the invalid-extension
diagnostic, before any file is opened. -/
theorem C9_amended_extension_gate :
    (∀ image_name zip_name : List Char, GET_FILE_EXT image_name ≠ ['p', 'n', 'g'] →
        validate_args image_name zip_name = some ArgErr.invalidExt) ∧
    (∀ image_name zip_name : List Char,
        validate_args image_name zip_name = none ↔
          GET_FILE_EXT image_name = ['p', 'n', 'g'] ∧
          GET_FILE_EXT zip_name = ['z', 'i', 'p'] ∧
          REG_EXP_match image_name = true ∧ REG_EXP_match zip_name = true) := by
  constructor
  · intro im zi h
    unfold validate_args
    rw [if_pos (Or.inl h), if_pos (Or.inl h)]
  · intro im zi
    unfold validate_args
    split_ifs with h
    · simp only [reduceCtorEq, false_iff]
      tauto
    · push_neg at h
      obtain ⟨h1, h2, h3, h4⟩ := h
      simp [h1, h2, h3, h4]

/-- Witness for C9 at a concrete path with a wrong extension. -/
theorem C9_amended_extension_gate_witness :
    validate_args ['a', '.', 'j', 'p', 'g'] ['b', '.', 'z', 'i', 'p'] =
      some ArgErr.invalidExt :=
  C9_amended_extension_gate.1 ['a', '.', 'j', 'p', 'g'] ['b', '.', 'z', 'i', 'p'] (by decide)

/-- IDAT chunk name searched for by the pruner. -/
def IDAT_SIG : List Nat := [0x49, 0x44, 0x41, 0x54]

/-- PLTE chunk name searched for by the pruner. -/
def PLTE_SIG : List Nat := [0x50, 0x4C, 0x54, 0x45]

/-- ZIP local-file-header signature PK 03 04. -/
def ZIP_SIG : List Nat := [0x50, 0x4B, 0x03, 0x04]

/-- ZIP central-directory entry signature PK 01 02. -/
def START_CENTRAL_DIR_SIG : List Nat := [0x50, 0x4B, 0x01, 0x02]

/-- ZIP end-of-central-directory signature PK 05 06. -/
def END_CENTRAL_DIR_SIG : List Nat := [0x50, 0x4B, 0x05, 0x06]

/-- List analogue of std::vector insert at a position: the bytes of s are
spliced in before position p. -/
def insertAtL (l : List Nat) (p : Nat) (s : List Nat) : List Nat :=
  l.take p ++ s ++ l.drop p

def App_Vec_Base : List (List Nat) := [
  [0x61, 0x61, 0x63],  -- 0: aac
  [0x6D, 0x70, 0x33],  -- 1: mp3
  [0x6D, 0x70, 0x34],  -- 2: mp4
  [0x61, 0x76, 0x69],  -- 3: avi
  [0x61, 0x73, 0x66],  -- 4: asf
  [0x66, 0x6C, 0x76],  -- 5: flv
  [0x65, 0x62, 0x6D],  -- 6: ebm
  [0x6D, 0x6B, 0x76],  -- 7: mkv
  [0x70, 0x65, 0x67],  -- 8: peg
  [0x77, 0x61, 0x76],  -- 9: wav
  [0x77, 0x6D, 0x76],  -- 10: wmv
  [0x77, 0x6D, 0x61],  -- 11: wma
  [0x6D, 0x6F, 0x76],  -- 12: mov
  [0x33, 0x67, 0x70],  -- 13: 3gp
  [0x6F, 0x67, 0x67],  -- 14: ogg
  [0x70, 0x64, 0x66],  -- 15: pdf
  [0x2E, 0x70, 0x79],  -- 16: .py
  [0x70, 0x73, 0x31],  -- 17: ps1
  [0x65, 0x78, 0x65],  -- 18: exe
  [0x2E, 0x73, 0x68],  -- 19: .sh
  [0x76, 0x6C, 0x63, 0x20, 0x2D, 0x2D, 0x70, 0x6C, 0x61, 0x79, 0x2D, 0x61, 0x6E, 0x64, 0x2D, 0x65, 0x78, 0x69, 0x74, 0x20, 0x2D, 0x2D, 0x6E, 0x6F, 0x2D, 0x76, 0x69, 0x64, 0x65, 0x6F, 0x2D, 0x74, 0x69, 0x74, 0x6C, 0x65, 0x2D, 0x73, 0x68, 0x6F, 0x77, 0x20],  -- 20: vlc --play-and-exit --no-video-title-show 
  [0x65, 0x76, 0x69, 0x6E, 0x63, 0x65, 0x20],  -- 21: evince 
  [0x70, 0x79, 0x74, 0x68, 0x6F, 0x6E, 0x33, 0x20],  -- 22: python3 
  [0x70, 0x77, 0x73, 0x68, 0x20],  -- 23: pwsh 
  [0x2E, 0x2F],  -- 24: ./
  [0x78, 0x64, 0x67, 0x2D, 0x6F, 0x70, 0x65, 0x6E, 0x20],  -- 25: xdg-open 
  [0x70, 0x6F, 0x77, 0x65, 0x72, 0x73, 0x68, 0x65, 0x6C, 0x6C, 0x3B, 0x49, 0x6E, 0x76, 0x6F, 0x6B, 0x65, 0x2D, 0x49, 0x74, 0x65, 0x6D, 0x20],  -- 26: powershell;Invoke-Item 
  [0x20, 0x26, 0x3E, 0x20, 0x2F, 0x64, 0x65, 0x76, 0x2F, 0x6E, 0x75, 0x6C, 0x6C],  -- 27:  &> /dev/null
  [0x73, 0x74, 0x61, 0x72, 0x74, 0x20, 0x2F, 0x62, 0x20, 0x22, 0x22],  -- 28: start /b ""
  [0x70, 0x61, 0x75, 0x73, 0x65, 0x26],  -- 29: pause&
  [0x70, 0x6F, 0x77, 0x65, 0x72, 0x73, 0x68, 0x65, 0x6C, 0x6C],  -- 30: powershell
  [0x63, 0x68, 0x6D, 0x6F, 0x64, 0x20, 0x2B, 0x78, 0x20],  -- 31: chmod +x 
  [0x3B]  -- 32: ;
]

/-- Sequence_Vec of Complete_Extraction_Script: four insertion sequences,
each a run of Script_Vec insert positions followed by the matching run of
App_Vec element indices. -/
def Sequence_Vec : List Nat :=
  [241, 239, 121, 120, 119, 33, 28, 27, 33, 20,
   241, 239, 120, 119, 33, 28, 33, 21,
   264, 242, 241, 239, 121, 120, 119, 29, 35, 33, 22, 34, 33, 22,
   264, 242, 241, 239, 121, 120, 119, 119, 119, 119, 29, 35, 33, 28, 34, 33, 24, 32, 33, 31]

/-- The 274-byte barebones dual shell and batch extraction script template,
the initial Script_Vec contents. -/
def Script_Vec_Template : List Nat := [
  0x00, 0x00, 0x00, 0xFD, 0x69, 0x43, 0x43, 0x50, 0x73, 0x63, 0x72, 0x00, 0x00, 0x0D, 0x52,
  0x45, 0x4D, 0x3B, 0x63, 0x6C, 0x65, 0x61, 0x72, 0x3B, 0x6D, 0x6B, 0x64, 0x69, 0x72, 0x20,
  0x2E, 0x2F, 0x70, 0x64, 0x76, 0x7A, 0x69, 0x70, 0x5F, 0x65, 0x78, 0x74, 0x72, 0x61, 0x63,
  0x74, 0x65, 0x64, 0x3B, 0x6D, 0x76, 0x20, 0x22, 0x24, 0x30, 0x22, 0x20, 0x2E, 0x2F, 0x70,
  0x64, 0x76, 0x7A, 0x69, 0x70, 0x5F, 0x65, 0x78, 0x74, 0x72, 0x61, 0x63, 0x74, 0x65, 0x64,
  0x3B, 0x63, 0x64, 0x20, 0x2E, 0x2F, 0x70, 0x64, 0x76, 0x7A, 0x69, 0x70, 0x5F, 0x65, 0x78,
  0x74, 0x72, 0x61, 0x63, 0x74, 0x65, 0x64, 0x3B, 0x75, 0x6E, 0x7A, 0x69, 0x70, 0x20, 0x2D,
  0x71, 0x6F, 0x20, 0x22, 0x24, 0x30, 0x22, 0x3B, 0x63, 0x6C, 0x65, 0x61, 0x72, 0x3B, 0x22,
  0x22, 0x3B, 0x65, 0x78, 0x69, 0x74, 0x3B, 0x0D, 0x0A, 0x23, 0x26, 0x63, 0x6C, 0x73, 0x26,
  0x6D, 0x6B, 0x64, 0x69, 0x72, 0x20, 0x2E, 0x5C, 0x70, 0x64, 0x76, 0x7A, 0x69, 0x70, 0x5F,
  0x65, 0x78, 0x74, 0x72, 0x61, 0x63, 0x74, 0x65, 0x64, 0x26, 0x6D, 0x6F, 0x76, 0x65, 0x20,
  0x22, 0x25, 0x7E, 0x64, 0x70, 0x6E, 0x78, 0x30, 0x22, 0x20, 0x2E, 0x5C, 0x70, 0x64, 0x76,
  0x7A, 0x69, 0x70, 0x5F, 0x65, 0x78, 0x74, 0x72, 0x61, 0x63, 0x74, 0x65, 0x64, 0x26, 0x63,
  0x64, 0x20, 0x2E, 0x5C, 0x70, 0x64, 0x76, 0x7A, 0x69, 0x70, 0x5F, 0x65, 0x78, 0x74, 0x72,
  0x61, 0x63, 0x74, 0x65, 0x64, 0x26, 0x63, 0x6C, 0x73, 0x26, 0x74, 0x61, 0x72, 0x20, 0x2D,
  0x78, 0x66, 0x20, 0x22, 0x25, 0x7E, 0x6E, 0x30, 0x25, 0x7E, 0x78, 0x30, 0x22, 0x26, 0x20,
  0x22, 0x22, 0x26, 0x72, 0x65, 0x6E, 0x20, 0x22, 0x25, 0x7E, 0x6E, 0x30, 0x25, 0x7E, 0x78,
  0x30, 0x22, 0x20, 0x2A, 0x2E, 0x70, 0x6E, 0x67, 0x26, 0x65, 0x78, 0x69, 0x74, 0x0D, 0x0A,
  0x00, 0x00, 0x00, 0x00]

/-- std::string find_last_of for a single character: index of the last
occurrence, none when absent (npos). -/
def find_last_of (l : List Nat) (c : Nat) : Option Nat :=
  match l with
  | [] => none
  | a :: as =>
    match find_last_of as c with
    | some k => some (k + 1)
    | none => if a = c then some 0 else none

/-- Fuel-driven scan underlying ext_match_loop; the fuel starts at 26 - i
and decreases by exactly one per index. -/
def ext_match_loop_aux (App : List (List Nat)) (ext : List Nat) (i : Nat) : Nat → Nat
  | 0 => 26
  | fuel + 1 =>
    if 26 ≤ i then 26
    else if App.getD i [] = ext then (if i ≤ 14 then 20 else i + 6)
    else ext_match_loop_aux App ext (i + 1) fuel

/-- The extension-matching for loop of Complete_Extraction_Script: scan
App_Vec indices upward while the index differs from 26; on a match an index
of at most 14 becomes 20 (VIDEO_AUDIO) and a larger one grows by 6. -/
def ext_match_loop (App : List (List Nat)) (ext : List Nat) (i : Nat) : Nat :=
  ext_match_loop_aux App ext i (26 - i)

/-- The one-step unfolding of ext_match_loop, the shape of the C++ loop. -/
lemma ext_match_loop_unfold (App : List (List Nat)) (ext : List Nat) (i : Nat) :
    ext_match_loop App ext i =
      if 26 ≤ i then 26
      else if App.getD i [] = ext then (if i ≤ 14 then 20 else i + 6)
      else ext_match_loop App ext (i + 1) := by
  unfold ext_match_loop
  cases hfuel : 26 - i with
  | zero =>
    rw [if_pos (by omega)]
    rfl
  | succ f =>
    show (if 26 ≤ i then 26
      else if App.getD i [] = ext then (if i ≤ 14 then 20 else i + 6)
      else ext_match_loop_aux App ext (i + 1) f) = _
    have hf : f = 26 - (i + 1) := by omega
    rw [hf]

/-- Fuel-driven loop underlying script_insert_loop; the fuel starts at
sequence_limit - insert_index and decreases by exactly one per step. -/
def script_insert_loop_aux (Seq : List Nat) (App : List (List Nat)) (sv : List Nat)
    (insert_index app_index sequence_limit : Nat) : Nat → List Nat
  | 0 => sv
  | fuel + 1 =>
    if sequence_limit ≤ insert_index then sv
    else
      script_insert_loop_aux Seq App
        (insertAtL sv (Seq.getD insert_index 0) (App.getD (Seq.getD app_index 0) []))
        (insert_index + 1) (app_index + 1) sequence_limit fuel

/-- The single insertion while loop of Complete_Extraction_Script: as long
as sequence_limit exceeds insert_index, insert the App_Vec element selected
by Sequence_Vec[app_index] at position Sequence_Vec[insert_index], then
advance both cursors. -/
def script_insert_loop (sv : List Nat) (Seq : List Nat) (App : List (List Nat))
    (insert_index app_index sequence_limit : Nat) : List Nat :=
  script_insert_loop_aux Seq App sv insert_index app_index sequence_limit
    (sequence_limit - insert_index)

/-- The one-step unfolding of script_insert_loop, the shape of the C++ loop. -/
lemma script_insert_loop_unfold (sv : List Nat) (Seq : List Nat) (App : List (List Nat))
    (insert_index app_index sequence_limit : Nat) :
    script_insert_loop sv Seq App insert_index app_index sequence_limit =
      if sequence_limit ≤ insert_index then sv
      else
        script_insert_loop
          (insertAtL sv (Seq.getD insert_index 0) (App.getD (Seq.getD app_index 0) []))
          Seq App (insert_index + 1) (app_index + 1) sequence_limit := by
  unfold script_insert_loop
  cases hfuel : sequence_limit - insert_index with
  | zero =>
    rw [if_pos (by omega)]
    rfl
  | succ f =>
    show (if sequence_limit ≤ insert_index then sv
      else script_insert_loop_aux Seq App
        (insertAtL sv (Seq.getD insert_index 0) (App.getD (Seq.getD app_index 0) []))
        (insert_index + 1) (app_index + 1) sequence_limit f) = _
    have hf : f = sequence_limit - (insert_index + 1) := by omega
    rw [hf]

/-- The launcher selection of Complete_Extraction_Script: the extension
match loop over App_Vec (extended with the first filename as element 33),
overridden when the name has no dot or only a leading dot: 26
(FOLDER_INVOKE_ITEM) when the name ends in a slash, else 24 (EXECUTABLE).
An unmatched extension leaves the loop counter at 26, the same value as
FOLDER_INVOKE_ITEM. -/
def launcher_app_index (first_zip_name : List Nat) : Nat :=
  if find_last_of first_zip_name 0x2E = some 0 ∨ find_last_of first_zip_name 0x2E = none then
    (if first_zip_name.getD (first_zip_name.length - 1) 0 = 0x2F then 26 else 24)
  else
    ext_match_loop (App_Vec_Base ++ [first_zip_name])
      (first_zip_name.drop (first_zip_name.length - 3)) 0

/-- The switch statement and insertion loop of Complete_Extraction_Script,
parameterised by the selected launcher index: optional argument strings
(added for indices 22 to 25, each prefixed with one space), the Sequence_Vec
adjustments of each case, and the insertion loop over the selected
sequence.  The value 26 reaches the PDF / FOLDER_INVOKE_ITEM case of the
switch; the final branch is the default case of the source (unreachable for
the values the selection can produce). -/
def script_insert_case (a1 : Nat) (first_zip_name args_linux args_windows : List Nat) :
    List Nat :=
  let App1 :=
    if 21 < a1 ∧ a1 < 26 then
      (App_Vec_Base ++ [first_zip_name]) ++ [0x20 :: args_linux, 0x20 :: args_windows]
    else App_Vec_Base ++ [first_zip_name]
  let st :=
    if a1 = 20 then (Sequence_Vec, 0, 5, App1)
    else if a1 = 21 ∨ a1 = 26 then
      (((Sequence_Vec.set 15 (if a1 = 26 then 26 else 28)).set 17
          (if a1 = 26 then 25 else 21)), 10, 14, App1)
    else if a1 = 22 ∨ a1 = 23 then
      (if a1 = 23 then
        ((((Sequence_Vec.set 31 23).set 28 30).set 27 36), 18, 25,
          App1 ++ [0x2E :: 0x5C :: first_zip_name])
      else (Sequence_Vec, 18, 25, App1))
    else if a1 = 24 ∨ a1 = 25 then
      (Sequence_Vec, (if a1 = 24 then 32 else 33), (if a1 = 24 then 42 else 43), App1)
    else ((Sequence_Vec.set 17 25), 10, 14, App1)
  let sequence_limit := if st.2.1 = 33 then st.2.2.1 - 1 else st.2.2.1
  script_insert_loop Script_Vec_Template st.1 st.2.2.2 st.2.1 st.2.2.1 sequence_limit

/-- Complete_Extraction_Script up to the completed insertions: launcher
selection followed by the switch and the insertion loop. -/
def Complete_Extraction_Script_insertions
    (first_zip_name args_linux args_windows : List Nat) : List Nat :=
  script_insert_case (launcher_app_index first_zip_name) first_zip_name
    args_linux args_windows

/-- The ten dot bytes appended when the low length byte is forbidden. -/
def INCREASE_LENGTH_STRING : List Nat := List.replicate 10 0x2E

/-- The iCCP length-field write and bad-character fix of
Complete_Extraction_Script: write script_size - 12 as a 16-bit big-endian
value at offset 2; when the byte now at position 3 is one of the BAD_CHAR
bytes, insert the ten dots before the 4-byte CRC placeholder and rewrite
the length. -/
def Script_Length_Fix (sv : List Nat) : List Nat :=
  let script_size := sv.length
  let sv1 := Value_Updater sv 2 (script_size - 12) 16 true
  if BAD_CHAR.any (fun b => decide (sv1.getD 3 0 = b)) then
    let sv2 := insertAtL sv1 (script_size - 4) INCREASE_LENGTH_STRING
    Value_Updater sv2 2 (sv2.length - 12) 16 true
  else sv1

/-- The iCCP CRC write of Complete_Extraction_Script: CRC over
script_size - 8 bytes starting at offset 4, written big-endian into the
last four bytes. -/
def Script_Add_Crc (sv : List Nat) : List Nat :=
  Value_Updater sv (sv.length - 4) (Crc (slice sv 4 (sv.length - 8))) 32 true

/-- Check_Zip_File wrapping: the 12-byte IDAT frame with the user ZIP
spliced in at index 8, then the chunk length zip_size - 12 written
big-endian at offset 0. -/
def Check_Zip_File_wrap (zipfile : List Nat) : List Nat :=
  let zv := [0x00, 0x00, 0x00, 0x00, 0x49, 0x44, 0x41, 0x54] ++ zipfile ++
    [0x00, 0x00, 0x00, 0x00]
  Value_Updater zv 0 (zv.length - 12) 32 true

/-- Check_Zip_File checks: bytes 8..11 must be the local-file signature and
byte 34 (the first filename length) must be at least 4; the signature
message takes precedence. -/
def Check_Zip_File_checks (zv : List Nat) : Option PdvErr :=
  if ¬slice zv 8 4 = ZIP_SIG then some .notZip
  else if zv.getD 34 0 < 4 then some .zipNameShort
  else none

/-- The offset-rewriting while loop of Fix_Zip_Offset, one iteration per
counted record: find the next local-file signature after the previous
offset, find the next central-directory signature from the previous entry
cursor, and write the found local offset little-endian into the four bytes
ending 45 past that signature. -/
def Fix_Zip_Offset_loop (img : List Nat) (new_offset central_local_index : Nat) :
    Nat → List Nat
  | 0 => img
  | n + 1 =>
    let no2 := findFrom img ZIP_SIG (new_offset + 1)
    let cli2 := 45 + findFrom img START_CENTRAL_DIR_SIG central_local_index
    Fix_Zip_Offset_loop (Value_Updater img cli2 no2 32 false) no2 cli2 n

/-- START_CENTRAL_DIR_INDEX of Fix_Zip_Offset: position of the first
central-directory signature at or after the last IDAT chunk index. -/
def START_CENTRAL_DIR_INDEX (img : List Nat) (IDAT_ZIP_INDEX : Nat) : Nat :=
  findFrom img START_CENTRAL_DIR_SIG IDAT_ZIP_INDEX

/-- END_CENTRAL_DIR_INDEX of Fix_Zip_Offset: position of the first
end-of-central-directory signature at or after the central-directory
start. -/
def END_CENTRAL_DIR_INDEX (img : List Nat) (IDAT_ZIP_INDEX : Nat) : Nat :=
  findFrom img END_CENTRAL_DIR_SIG (START_CENTRAL_DIR_INDEX img IDAT_ZIP_INDEX)

/-- The record count read by Fix_Zip_Offset, the source expression
(v[zip_records_index] << 8) | v[zip_records_index - 1] with
zip_records_index = END_CENTRAL_DIR_INDEX + 11. -/
def zip_records_read (img : List Nat) (IDAT_ZIP_INDEX : Nat) : Nat :=
  img.getD (END_CENTRAL_DIR_INDEX img IDAT_ZIP_INDEX + 11) 0 * 256 +
    img.getD (END_CENTRAL_DIR_INDEX img IDAT_ZIP_INDEX + 11 - 1) 0

/-- Fix_Zip_Offset of the source: locate the central directory and the end
record from the last IDAT chunk onward, read the record count, rewrite
every local-header offset through the loop, write the central-directory
start offset into the four bytes ending at END_CENTRAL_DIR_INDEX + 19, and
grow the 16-bit comment length (read after those writes, source expression
16 + ((v[E+21] << 8) | v[E+21-1])) by 16. -/
def Fix_Zip_Offset (img : List Nat) (IDAT_ZIP_INDEX : Nat) : List Nat :=
  let img1 := Fix_Zip_Offset_loop img IDAT_ZIP_INDEX
    (START_CENTRAL_DIR_INDEX img IDAT_ZIP_INDEX - 1) (zip_records_read img IDAT_ZIP_INDEX)
  let img2 := Value_Updater img1 (END_CENTRAL_DIR_INDEX img IDAT_ZIP_INDEX + 19)
    (START_CENTRAL_DIR_INDEX img IDAT_ZIP_INDEX) 32 false
  Value_Updater img2 (END_CENTRAL_DIR_INDEX img IDAT_ZIP_INDEX + 21)
    (16 + (img2.getD (END_CENTRAL_DIR_INDEX img IDAT_ZIP_INDEX + 21) 0 * 256 +
      img2.getD (END_CENTRAL_DIR_INDEX img IDAT_ZIP_INDEX + 21 - 1) 0)) 16 false

/-- Combine_Vectors of the source: splice the script after byte 33 of the
pruned image, splice the wrapped ZIP before the final 12 bytes, run the
offset fixer from the wrapped ZIP chunk's type field, then compute and
write the final IDAT CRC into the four bytes at 16 from the end. -/
def Combine_Vectors (imageVec scriptVec zipVec : List Nat) : List Nat :=
  let iv1 := insertAtL imageVec 33 scriptVec
  let iv2 := insertAtL iv1 (iv1.length - 12) zipVec
  let IDAT_ZIP_INDEX := imageVec.length + scriptVec.length - 8
  let iv3 := Fix_Zip_Offset iv2 IDAT_ZIP_INDEX
  let IDAT_ZIP_CRC := Crc (slice iv3 IDAT_ZIP_INDEX (zipVec.length - 8))
  Value_Updater iv3 (iv3.length - 16) IDAT_ZIP_CRC 32 true

/-- Fuel-driven loop underlying Erase_idat_loop; the index strictly grows
each step, so fuel image_size - idat_index suffices. -/
def Erase_idat_loop_aux (img : List Nat) (image_size : Nat) (idat_index : Nat)
    (acc : List Nat) : Nat → List Nat
  | 0 => acc
  | fuel + 1 =>
    if image_size ≤ idat_index + 4 ∨ img.length ≤ idat_index + 4 then acc
    else
      Erase_idat_loop_aux img image_size (findFrom img IDAT_SIG (idat_index + 6) - 4)
        (acc ++ slice img idat_index (rd32BE img idat_index + 12)) fuel

/-- The IDAT-copying while loop of Erase_Image_Chunks: while image_size
differs from idat_index + 4, copy length + 12 bytes from the current chunk
and jump to the next IDAT occurrence (searched from idat_index + 6, minus 4
for the length field).  The guard is written with two inequalities rather
than the source inequality test; they agree whenever idat_index stays
within the buffer, which the search guarantees (going past it is
out-of-range indexing in the C++). -/
def Erase_idat_loop (img : List Nat) (image_size idat_index : Nat) (acc : List Nat) :
    List Nat :=
  Erase_idat_loop_aux img image_size idat_index acc (image_size - idat_index)

lemma erase_idat_next_gt (img : List Nat) (idat_index : Nat)
    (h : ¬img.length ≤ idat_index + 4) :
    idat_index < findFrom img IDAT_SIG (idat_index + 6) - 4 := by
  rcases Nat.lt_or_ge img.length (idat_index + 10) with hc | hc
  · have he : findFrom img IDAT_SIG (idat_index + 6) = img.length := by
      rw [findFrom_unfold, if_pos]
      simp only [IDAT_SIG, List.length_cons, List.length_nil]
      omega
    omega
  · have := findFrom_ge img IDAT_SIG (idat_index + 6) (by omega)
    omega

lemma erase_idat_loop_aux_fuel (img : List Nat) (image_size : Nat) :
    ∀ f g idat_index acc, image_size - idat_index ≤ f → image_size - idat_index ≤ g →
      Erase_idat_loop_aux img image_size idat_index acc f =
        Erase_idat_loop_aux img image_size idat_index acc g := by
  intro f
  induction f using Nat.strong_induction_on with
  | _ f ih =>
    intro g idat acc hf hg
    match f, g with
    | 0, 0 => rfl
    | 0, g + 1 =>
      show acc = if image_size ≤ idat + 4 ∨ img.length ≤ idat + 4 then acc else _
      rw [if_pos (by omega)]
    | f + 1, 0 =>
      show (if image_size ≤ idat + 4 ∨ img.length ≤ idat + 4 then acc else _) = acc
      rw [if_pos (by omega)]
    | f + 1, g + 1 =>
      show (if image_size ≤ idat + 4 ∨ img.length ≤ idat + 4 then acc else _) =
        (if image_size ≤ idat + 4 ∨ img.length ≤ idat + 4 then acc else _)
      by_cases hguard : image_size ≤ idat + 4 ∨ img.length ≤ idat + 4
      · rw [if_pos hguard, if_pos hguard]
      · rw [if_neg hguard, if_neg hguard]
        have hnext := erase_idat_next_gt img idat (by omega)
        exact ih f (by omega) g _ _ (by omega) (by omega)

/-- The one-step unfolding of Erase_idat_loop, the shape of the C++ loop. -/
lemma erase_idat_loop_unfold (img : List Nat) (image_size idat_index : Nat)
    (acc : List Nat) :
    Erase_idat_loop img image_size idat_index acc =
      if image_size ≤ idat_index + 4 ∨ img.length ≤ idat_index + 4 then acc
      else
        Erase_idat_loop img image_size (findFrom img IDAT_SIG (idat_index + 6) - 4)
          (acc ++ slice img idat_index (rd32BE img idat_index + 12)) := by
  unfold Erase_idat_loop
  cases hfuel : image_size - idat_index with
  | zero =>
    rw [if_pos (by omega)]
    rfl
  | succ f =>
    show (if image_size ≤ idat_index + 4 ∨ img.length ≤ idat_index + 4 then acc
      else Erase_idat_loop_aux img image_size
        (findFrom img IDAT_SIG (idat_index + 6) - 4)
        (acc ++ slice img idat_index (rd32BE img idat_index + 12)) f) = _
    by_cases hguard : image_size ≤ idat_index + 4 ∨ img.length ≤ idat_index + 4
    · rw [if_pos hguard, if_pos hguard]
    · rw [if_neg hguard, if_neg hguard]
      have hnext := erase_idat_next_gt img idat_index (by omega)
      exact erase_idat_loop_aux_fuel img image_size f _ _ _ (by omega) (by omega)

/-- Erase_Image_Chunks of the source: keep the first 33 bytes, verify the
first IDAT CRC, keep the PLTE chunk for indexed color (its length read as
the 24-bit value of bytes 1..3 of the length field), copy every IDAT
chunk, and keep the final 12 bytes. -/
def Erase_Image_Chunks (img : List Nat) : Except PdvErr (List Nat) :=
  let Temp0 := img.take 33
  let idat_index := findFrom img IDAT_SIG 0 - 4
  let FIRST_IDAT_LENGTH := rd32BE img idat_index
  let FIRST_IDAT_CRC_INDEX := idat_index + FIRST_IDAT_LENGTH + 8
  let FIRST_IDAT_CRC := rd32BE img FIRST_IDAT_CRC_INDEX
  let CALC_FIRST_IDAT_CRC := Crc (slice img (idat_index + 4) (FIRST_IDAT_LENGTH + 4))
  if FIRST_IDAT_CRC ≠ CALC_FIRST_IDAT_CRC then .error .idatCrc
  else if img.getD 25 0 = 3 then
    let PLTE_CHUNK_INDEX := findFrom img PLTE_SIG 0 - 4
    if PLTE_CHUNK_INDEX < idat_index then
      let CHUNK_SIZE := img.getD (PLTE_CHUNK_INDEX + 1) 0 * 65536 +
        img.getD (PLTE_CHUNK_INDEX + 2) 0 * 256 + img.getD (PLTE_CHUNK_INDEX + 3) 0
      .ok (Erase_idat_loop img img.length idat_index
            (Temp0 ++ slice img PLTE_CHUNK_INDEX (CHUNK_SIZE + 12)) ++
          img.drop (img.length - 12))
    else .error .missingPlte
  else
    .ok (Erase_idat_loop img img.length idat_index Temp0 ++ img.drop (img.length - 12))

/-- The whole build, Open_Files size gate through Combine_Vectors, with the
two input files given as byte lists and the two prompted argument strings
as parameters (only consulted for the launcher classes that prompt). -/
def pdvzip_build (image zipfile args_linux args_windows : List Nat) :
    Except PdvErr (List Nat) :=
  if file_size_check image.length zipfile.length = false then .error .sizeBounds
  else
    match Check_Image_File_checks image with
    | some e => .error e
    | none =>
      match Erase_Image_Chunks image with
      | .error e => .error e
      | .ok pruned =>
        let zv := Check_Zip_File_wrap zipfile
        match Check_Zip_File_checks zv with
        | some e => .error e
        | none =>
          let first_zip_name := slice zv 38 (zv.getD 34 0)
          let sv1 := Script_Length_Fix
            (Complete_Extraction_Script_insertions first_zip_name args_linux args_windows)
          if sv1.length > 750 then .error .scriptSize
          else if sv1.length + pruned.length + zv.length > MAX_FILE_SIZE then
            .error .sizeBounds
          else .ok (Combine_Vectors pruned (Script_Add_Crc sv1) zv)

lemma getD_take (l : List Nat) (n j : Nat) (h : j < n) :
    (l.take n).getD j 0 = l.getD j 0 := by
  simp [List.getD, List.get?_eq_getElem?, List.getElem?_take, h]

lemma insertAtL_append_left (l1 l2 s : List Nat) (n : Nat) (h : n ≤ l1.length) :
    insertAtL (l1 ++ l2) n s = insertAtL l1 n s ++ l2 := by
  unfold insertAtL
  rw [List.take_append_of_le_length h, List.drop_append_of_le_length h]
  simp [List.append_assoc]

lemma ext_match_loop_no_match (App : List (List Nat)) (ext : List Nat)
    (h : ∀ i, i < 26 → ¬App.getD i [] = ext) :
    ∀ j, ext_match_loop App ext j = 26 := by
  have H : ∀ m j, 26 - j ≤ m → ext_match_loop App ext j = 26 := by
    intro m
    induction m with
    | zero =>
      intro j hj
      rw [ext_match_loop_unfold, if_pos (by omega)]
    | succ m ih =>
      intro j hj
      rw [ext_match_loop_unfold]
      by_cases h26 : 26 ≤ j
      · rw [if_pos h26]
      · rw [if_neg h26, if_neg (h j (by omega))]
        exact ih (j + 1) (by omega)
  intro j
  exact H (26 - j) j (le_refl _)

lemma launcher_app_index_unmatched (name : List Nat)
    (hlen : 3 ≤ name.length)
    (hdot : ∃ k, find_last_of name 0x2E = some k ∧ 1 ≤ k)
    (hkeys : ∀ i, i < 20 → ¬name.drop (name.length - 3) = App_Vec_Base.getD i []) :
    launcher_app_index name = 26 := by
  obtain ⟨k, hk, hk1⟩ := hdot
  have hcond : ¬(find_last_of name 0x2E = some 0 ∨ find_last_of name 0x2E = none) := by
    rw [hk]
    rintro (h0 | h0)
    · simp at h0
      omega
    · simp at h0
  unfold launcher_app_index
  rw [if_neg hcond]
  apply ext_match_loop_no_match
  intro i hi
  have hext_len : (name.drop (name.length - 3)).length = 3 := by
    rw [List.length_drop]
    omega
  have hbase : App_Vec_Base.length = 33 := by decide
  have hgd : (App_Vec_Base ++ [name]).getD i [] = App_Vec_Base.getD i [] :=
    List.getD_append _ _ _ _ (by omega)
  rw [hgd]
  by_cases h20 : i < 20
  · intro he
    exact hkeys i h20 he.symm
  · intro he
    have hl := congrArg List.length he.symm
    rw [hext_len] at hl
    interval_cases i <;> revert hl <;> decide

lemma script_insert_case_26 (name args_linux args_windows : List Nat) :
    script_insert_case 26 name args_linux args_windows =
      script_insert_loop Script_Vec_Template ((Sequence_Vec.set 15 26).set 17 25)
        (App_Vec_Base ++ [name]) 10 14 14 := by
  unfold script_insert_case
  norm_num

lemma script_insert_loop_folder_case (name : List Nat) :
    script_insert_loop Script_Vec_Template ((Sequence_Vec.set 15 26).set 17 25)
      (App_Vec_Base ++ [name]) 10 14 14 =
    slice Script_Vec_Template 0 119 ++ App_Vec_Base.getD 25 [] ++
      slice Script_Vec_Template 119 1 ++ name ++ slice Script_Vec_Template 120 119 ++
      App_Vec_Base.getD 26 [] ++ slice Script_Vec_Template 239 2 ++ name ++
      slice Script_Vec_Template 241 33 := by
  have hApp33 : (App_Vec_Base ++ [name]).getD 33 [] = name := by
    rw [List.getD_append_right _ _ _ _ (by decide)]
    norm_num [show (33 : Nat) - App_Vec_Base.length = 0 from by decide]
  have hApp26 : (App_Vec_Base ++ [name]).getD 26 [] = App_Vec_Base.getD 26 [] :=
    List.getD_append _ _ _ _ (by decide)
  have hApp25 : (App_Vec_Base ++ [name]).getD 25 [] = App_Vec_Base.getD 25 [] :=
    List.getD_append _ _ _ _ (by decide)
  rw [script_insert_loop_unfold, if_neg (by norm_num)]
  rw [show ((Sequence_Vec.set 15 26).set 17 25).getD 10 0 = 241 from by decide,
    show ((Sequence_Vec.set 15 26).set 17 25).getD 14 0 = 33 from by decide, hApp33]
  rw [script_insert_loop_unfold, if_neg (by norm_num)]
  rw [show ((Sequence_Vec.set 15 26).set 17 25).getD 11 0 = 239 from by decide,
    show ((Sequence_Vec.set 15 26).set 17 25).getD 15 0 = 26 from by decide, hApp26]
  rw [script_insert_loop_unfold, if_neg (by norm_num)]
  rw [show ((Sequence_Vec.set 15 26).set 17 25).getD 12 0 = 120 from by decide,
    show ((Sequence_Vec.set 15 26).set 17 25).getD 16 0 = 33 from by decide, hApp33]
  rw [script_insert_loop_unfold, if_neg (by norm_num)]
  rw [show ((Sequence_Vec.set 15 26).set 17 25).getD 13 0 = 119 from by decide,
    show ((Sequence_Vec.set 15 26).set 17 25).getD 17 0 = 25 from by decide, hApp25]
  rw [script_insert_loop_unfold, if_pos (le_refl 14)]
  rw [show insertAtL Script_Vec_Template 241 name =
      Script_Vec_Template.take 241 ++ (name ++ Script_Vec_Template.drop 241) from by
    simp [insertAtL]]
  rw [insertAtL_append_left _ _ _ _ (by decide)]
  rw [show (insertAtL (Script_Vec_Template.take 241) 239 (App_Vec_Base.getD 26 [])) =
      Script_Vec_Template.take 120 ++
        (slice Script_Vec_Template 120 119 ++ App_Vec_Base.getD 26 [] ++
          slice Script_Vec_Template 239 2) from by decide]
  rw [List.append_assoc, insertAtL_append_left _ _ _ _ (by decide)]
  rw [show insertAtL (Script_Vec_Template.take 120) 120 name =
      Script_Vec_Template.take 120 ++ name ++ (Script_Vec_Template.take 120).drop 120 from by
    simp [insertAtL]]
  rw [show (Script_Vec_Template.take 120).drop 120 = ([] : List Nat) from by decide]
  rw [List.append_nil, List.append_assoc, insertAtL_append_left _ _ _ _ (by decide)]
  rw [show insertAtL (Script_Vec_Template.take 120) 119 (App_Vec_Base.getD 25 []) =
      slice Script_Vec_Template 0 119 ++ App_Vec_Base.getD 25 [] ++
        slice Script_Vec_Template 119 1 from by decide]
  rw [show Script_Vec_Template.drop 241 = slice Script_Vec_Template 241 33 from by decide]
  simp [List.append_assoc]

/-- C3 counterexample: for the first entry name a.qq, whose extension .qq
has its dot after position 0, matches none of the nineteen extension keys
and does not end in a slash, the claim predicts the DEFAULT launcher with
the Windows segment using start /b; instead the composed script nowhere
contains the bytes of start /b and carries the powershell Invoke-Item
command (App_Vec element 26) at position 252 of its Windows segment. -/
theorem C3_cex_unmatched_ext_not_default :
    findFrom (Complete_Extraction_Script_insertions [0x61, 0x2E, 0x71, 0x71] [] [])
        [0x73, 0x74, 0x61, 0x72, 0x74, 0x20, 0x2F, 0x62] 0 =
      (Complete_Extraction_Script_insertions [0x61, 0x2E, 0x71, 0x71] [] []).length ∧
    slice (Complete_Extraction_Script_insertions [0x61, 0x2E, 0x71, 0x71] [] []) 252 23 =
      App_Vec_Base.getD 26 [] := by
  constructor
  · decide
  · decide

/-- C3 amended: for every first entry name with a usable extension (a dot
after position 0) whose last three characters match none of the twenty
extension keys (the nineteen listed ones and .sh), the composed script
selects the launcher of the FOLDER_INVOKE_ITEM case: the POSIX segment
invokes the file with xdg-open (App_Vec element 25, inserted at template
position 119 before the name) and the Windows segment invokes it with
powershell Invoke-Item (App_Vec element 26, inserted at template position
239 before the name). -/
theorem C3_amended_unmatched_ext_folder_launcher (name args_linux args_windows : List Nat)
    (hlen : 3 ≤ name.length)
    (hdot : ∃ k, find_last_of name 0x2E = some k ∧ 1 ≤ k)
    (hkeys : ∀ i, i < 20 → ¬name.drop (name.length - 3) = App_Vec_Base.getD i []) :
    Complete_Extraction_Script_insertions name args_linux args_windows =
      slice Script_Vec_Template 0 119 ++ App_Vec_Base.getD 25 [] ++
        slice Script_Vec_Template 119 1 ++ name ++ slice Script_Vec_Template 120 119 ++
        App_Vec_Base.getD 26 [] ++ slice Script_Vec_Template 239 2 ++ name ++
        slice Script_Vec_Template 241 33 := by
  unfold Complete_Extraction_Script_insertions
  rw [launcher_app_index_unmatched name hlen hdot hkeys, script_insert_case_26,
    script_insert_loop_folder_case]

/-- Witness for C3 at the concrete name a.zz. -/
theorem C3_amended_unmatched_ext_folder_launcher_witness :
    Complete_Extraction_Script_insertions [0x61, 0x2E, 0x7A, 0x7A] [] [] =
      slice Script_Vec_Template 0 119 ++ App_Vec_Base.getD 25 [] ++
        slice Script_Vec_Template 119 1 ++ [0x61, 0x2E, 0x7A, 0x7A] ++
        slice Script_Vec_Template 120 119 ++ App_Vec_Base.getD 26 [] ++
        slice Script_Vec_Template 239 2 ++ [0x61, 0x2E, 0x7A, 0x7A] ++
        slice Script_Vec_Template 241 33 :=
  C3_amended_unmatched_ext_folder_launcher [0x61, 0x2E, 0x7A, 0x7A] [] []
    (by decide) ⟨1, by decide, by decide⟩ (by decide)

lemma getD_vu16T_outside (l : List Nat) (i v j : Nat) (h : j < i ∨ i + 1 < j) :
    (Value_Updater l i v 16 true).getD j 0 = l.getD j 0 := by
  rw [value_updater_16_true, getD_set_ne _ _ _ _ (by omega), getD_set_ne _ _ _ _ (by omega)]

lemma getD_vu32T_outside (l : List Nat) (i v j : Nat) (h : j < i ∨ i + 3 < j) :
    (Value_Updater l i v 32 true).getD j 0 = l.getD j 0 := by
  rw [value_updater_32_true, getD_set_ne _ _ _ _ (by omega), getD_set_ne _ _ _ _ (by omega),
    getD_set_ne _ _ _ _ (by omega), getD_set_ne _ _ _ _ (by omega)]

lemma getD_vu16F_outside (l : List Nat) (i v j : Nat) (h : j + 1 < i ∨ i < j) :
    (Value_Updater l i v 16 false).getD j 0 = l.getD j 0 := by
  rw [value_updater_16_false, getD_set_ne _ _ _ _ (by omega), getD_set_ne _ _ _ _ (by omega)]

lemma getD_vu32F_outside (l : List Nat) (i v j : Nat) (h : j + 3 < i ∨ i < j) :
    (Value_Updater l i v 32 false).getD j 0 = l.getD j 0 := by
  rw [value_updater_32_false, getD_set_ne _ _ _ _ (by omega), getD_set_ne _ _ _ _ (by omega),
    getD_set_ne _ _ _ _ (by omega), getD_set_ne _ _ _ _ (by omega)]

lemma findFrom_ge_min (l pat : List Nat) (s : Nat) :
    min s l.length ≤ findFrom l pat s := by
  rcases Nat.lt_or_ge l.length s with h | h
  · have he : findFrom l pat s = l.length := by
      rw [findFrom_unfold, if_pos (by omega)]
    omega
  · have := findFrom_ge l pat s h
    omega

lemma length_insertAtL (l s : List Nat) (p : Nat) (h : p ≤ l.length) :
    (insertAtL l p s).length = l.length + s.length := by
  simp [insertAtL]
  omega

lemma getD_insertAtL_lt (l s : List Nat) (p j : Nat) (hj : j < p) (hp : p ≤ l.length) :
    (insertAtL l p s).getD j 0 = l.getD j 0 := by
  unfold insertAtL
  rw [List.getD_append _ _ _ _ (by simp; omega), List.getD_append _ _ _ _ (by simp; omega)]
  exact getD_take l p j hj

lemma getD_insertAtL_mid (l s : List Nat) (p k : Nat) (hk : k < s.length)
    (hp : p ≤ l.length) :
    (insertAtL l p s).getD (p + k) 0 = s.getD k 0 := by
  unfold insertAtL
  rw [List.getD_append _ _ _ _ (by simp; omega)]
  rw [List.getD_append_right _ _ _ _ (by simp)]
  congr 1
  rw [List.length_take, Nat.min_eq_left hp]
  omega

lemma length_fix_loop (n : Nat) :
    ∀ (img : List Nat) (no cli : Nat),
      (Fix_Zip_Offset_loop img no cli n).length = img.length := by
  induction n with
  | zero => intro img no cli; rfl
  | succ n ih =>
    intro img no cli
    show (Fix_Zip_Offset_loop (Value_Updater img _ _ 32 false) _ _ n).length = _
    rw [ih, length_value_updater]

lemma length_fix (img : List Nat) (idx : Nat) :
    (Fix_Zip_Offset img idx).length = img.length := by
  unfold Fix_Zip_Offset
  simp [length_value_updater, length_fix_loop]

lemma fix_loop_preserves (n : Nat) :
    ∀ (img : List Nat) (no cli j : Nat), j < cli + 42 → j < img.length + 42 →
      (Fix_Zip_Offset_loop img no cli n).getD j 0 = img.getD j 0 := by
  induction n with
  | zero => intro img no cli j h1 h2; rfl
  | succ n ih =>
    intro img no cli j h1 h2
    have hmin := findFrom_ge_min img START_CENTRAL_DIR_SIG cli
    show (Fix_Zip_Offset_loop (Value_Updater img (45 + findFrom img START_CENTRAL_DIR_SIG cli)
      (findFrom img ZIP_SIG (no + 1)) 32 false) _ _ n).getD j 0 = _
    rw [ih _ _ _ _ (by omega) (by rw [length_value_updater]; omega)]
    exact getD_vu32F_outside _ _ _ _ (by omega)

lemma fix_preserves_low (img : List Nat) (idx j : Nat)
    (h : j + 16 ≤ START_CENTRAL_DIR_INDEX img idx) :
    (Fix_Zip_Offset img idx).getD j 0 = img.getD j 0 := by
  have hS_le : START_CENTRAL_DIR_INDEX img idx ≤ img.length :=
    findFrom_le img START_CENTRAL_DIR_SIG idx
  have hE : START_CENTRAL_DIR_INDEX img idx ≤ END_CENTRAL_DIR_INDEX img idx :=
    findFrom_ge img END_CENTRAL_DIR_SIG _ hS_le
  unfold Fix_Zip_Offset
  rw [getD_vu16F_outside _ _ _ _ (by omega), getD_vu32F_outside _ _ _ _ (by omega)]
  exact fix_loop_preserves _ _ _ _ _ (by omega) (by omega)

lemma bad_char_free_of_check (img : List Nat) (h : ihdr_bad_char_found img = false) :
    ∀ i, 19 ≤ i → i ≤ 32 → ¬img.getD i 0 ∈ BAD_CHAR := by
  intro i h19 h32 hmem
  rw [ihdr_bad_char_found, List.any_eq_false] at h
  have hi : i ∈ List.range' 19 14 := by
    rw [List.mem_range'_1]
    omega
  have h2 := h i hi
  rw [Bool.not_eq_true, List.any_eq_false] at h2
  have h3 := h2 (img.getD i 0) hmem
  simp at h3

lemma script_length_fix_byte3 (sv : List Nat) (h8 : 8 ≤ sv.length) :
    ¬(Script_Length_Fix sv).getD 3 0 ∈ BAD_CHAR := by
  unfold Script_Length_Fix
  have hlen1 : (Value_Updater sv 2 (sv.length - 12) 16 true).length = sv.length :=
    length_value_updater _ _ _ _ _
  have hbyte1 : (Value_Updater sv 2 (sv.length - 12) 16 true).getD 3 0 =
      (sv.length - 12) % 256 := by
    rw [value_updater_16_true]
    exact getD_set_self _ _ _ (by simp; omega)
  set sv1 := Value_Updater sv 2 (sv.length - 12) 16 true with hsv1
  by_cases hbad : BAD_CHAR.any (fun b => decide (sv1.getD 3 0 = b)) = true
  · rw [if_pos hbad]
    rw [hbyte1, List.any_eq_true] at hbad
    obtain ⟨b, hbmem, hbeq⟩ := hbad
    rw [decide_eq_true_eq] at hbeq
    have hlen2 : (insertAtL sv1 (sv.length - 4) INCREASE_LENGTH_STRING).length =
        sv.length + 10 := by
      rw [length_insertAtL _ _ _ (by omega), hlen1]
      norm_num [INCREASE_LENGTH_STRING]
    set sv2 := insertAtL sv1 (sv.length - 4) INCREASE_LENGTH_STRING with hsv2
    have hsv2len : sv2.length = sv.length + 10 := by
      rw [hsv2]
      exact hlen2
    have hbyte2 : (Value_Updater sv2 2 (sv2.length - 12) 16 true).getD 3 0 =
        (sv.length + 10 - 12) % 256 := by
      rw [value_updater_16_true]
      rw [getD_set_self _ _ _ (by simp only [List.length_set]; omega)]
      rw [hsv2len]
    rw [hbyte2]
    intro hmem2
    simp only [BAD_CHAR, List.mem_cons, List.not_mem_nil, or_false] at hbmem hmem2
    clear_value sv2 sv1
    omega
  · rw [if_neg hbad]
    rw [Bool.not_eq_true, List.any_eq_false] at hbad
    intro hmem
    have := hbad _ hmem
    simp at this

lemma script_add_crc_byte3 (sv : List Nat) (h8 : 8 ≤ sv.length) :
    (Script_Add_Crc sv).getD 3 0 = sv.getD 3 0 := by
  unfold Script_Add_Crc
  exact getD_vu32T_outside _ _ _ _ (by omega)

lemma combine_getD_low (imageVec scriptVec zipVec : List Nat) (j : Nat)
    (hj : j < 33) (himg : 45 ≤ imageVec.length) (hscr : 286 ≤ scriptVec.length)
    (hzip : 12 ≤ zipVec.length) :
    (Combine_Vectors imageVec scriptVec zipVec).getD j 0 = imageVec.getD j 0 := by
  have hl1 : (insertAtL imageVec 33 scriptVec).length =
      imageVec.length + scriptVec.length := length_insertAtL _ _ _ (by omega)
  have hl2 : (insertAtL (insertAtL imageVec 33 scriptVec)
      ((insertAtL imageVec 33 scriptVec).length - 12) zipVec).length =
      imageVec.length + scriptVec.length + zipVec.length := by
    rw [length_insertAtL _ _ _ (by omega), hl1]
  unfold Combine_Vectors
  rw [getD_vu32T_outside _ _ _ _ (by rw [length_fix, hl2]; omega)]
  rw [fix_preserves_low _ _ _ (by
    unfold START_CENTRAL_DIR_INDEX
    have := findFrom_ge (insertAtL (insertAtL imageVec 33 scriptVec)
        ((insertAtL imageVec 33 scriptVec).length - 12) zipVec)
      START_CENTRAL_DIR_SIG (imageVec.length + scriptVec.length - 8) (by rw [hl2]; omega)
    omega)]
  rw [getD_insertAtL_lt _ _ _ _ (by omega) (by omega)]
  exact getD_insertAtL_lt _ _ _ _ hj (by omega)

lemma combine_getD_script (imageVec scriptVec zipVec : List Nat) (k : Nat)
    (hk : k + 12 ≤ scriptVec.length) (himg : 45 ≤ imageVec.length)
    (hscr : 286 ≤ scriptVec.length) (hzip : 12 ≤ zipVec.length) :
    (Combine_Vectors imageVec scriptVec zipVec).getD (33 + k) 0 = scriptVec.getD k 0 := by
  have hl1 : (insertAtL imageVec 33 scriptVec).length =
      imageVec.length + scriptVec.length := length_insertAtL _ _ _ (by omega)
  have hl2 : (insertAtL (insertAtL imageVec 33 scriptVec)
      ((insertAtL imageVec 33 scriptVec).length - 12) zipVec).length =
      imageVec.length + scriptVec.length + zipVec.length := by
    rw [length_insertAtL _ _ _ (by omega), hl1]
  unfold Combine_Vectors
  rw [getD_vu32T_outside _ _ _ _ (by rw [length_fix, hl2]; omega)]
  rw [fix_preserves_low _ _ _ (by
    unfold START_CENTRAL_DIR_INDEX
    have := findFrom_ge (insertAtL (insertAtL imageVec 33 scriptVec)
        ((insertAtL imageVec 33 scriptVec).length - 12) zipVec)
      START_CENTRAL_DIR_SIG (imageVec.length + scriptVec.length - 8) (by rw [hl2]; omega)
    omega)]
  rw [getD_insertAtL_lt _ _ _ _ (by omega) (by omega)]
  exact getD_insertAtL_mid _ _ _ _ (by omega) (by omega)

/-- C5: the iCCP length sanitization works: after the 16-bit length write,
the byte at position 3 of the script chunk is never one of the forbidden
bytes (when the freshly written low byte is forbidden, appending the ten
dots and rewriting the length always lands on an unforbidden byte, since
every forbidden value plus ten is unforbidden and no carry occurs); the CRC
write keeps that byte; the bad-character check of Check_Image_File says
exactly that image bytes 19 through 32 are unforbidden; and the assembled
output keeps the image bytes at indices 19 through 32 and exposes the
script byte 3 at output offset 36 (offset 3 of the iCCP length field). -/
theorem C5_forbidden_byte_freedom :
    (∀ sv : List Nat, 8 ≤ sv.length → ¬(Script_Length_Fix sv).getD 3 0 ∈ BAD_CHAR) ∧
    (∀ sv : List Nat, 8 ≤ sv.length → (Script_Add_Crc sv).getD 3 0 = sv.getD 3 0) ∧
    (∀ img : List Nat, ihdr_bad_char_found img = false →
        ∀ i, 19 ≤ i → i ≤ 32 → ¬img.getD i 0 ∈ BAD_CHAR) ∧
    (∀ imageVec scriptVec zipVec : List Nat,
        45 ≤ imageVec.length → 286 ≤ scriptVec.length → 12 ≤ zipVec.length →
        (∀ i, 19 ≤ i → i ≤ 32 → ¬imageVec.getD i 0 ∈ BAD_CHAR) →
        (∀ i, 19 ≤ i → i ≤ 32 →
            ¬(Combine_Vectors imageVec scriptVec zipVec).getD i 0 ∈ BAD_CHAR) ∧
          (Combine_Vectors imageVec scriptVec zipVec).getD 36 0 = scriptVec.getD 3 0) := by
  refine ⟨script_length_fix_byte3, script_add_crc_byte3, bad_char_free_of_check, ?_⟩
  intro imageVec scriptVec zipVec himg hscr hzip hfree
  constructor
  · intro i h19 h32
    rw [combine_getD_low imageVec scriptVec zipVec i (by omega) himg hscr hzip]
    exact hfree i h19 h32
  · exact combine_getD_script imageVec scriptVec zipVec 3 (by omega) himg hscr hzip

/-- Witness for C5 at a concrete script vector and concrete buffers. -/
theorem C5_forbidden_byte_freedom_witness :
    ¬(Script_Length_Fix (List.replicate 302 0)).getD 3 0 ∈ BAD_CHAR ∧
    (Combine_Vectors (List.replicate 45 0) (List.replicate 286 0)
        (List.replicate 12 0)).getD 36 0 = (List.replicate 286 0).getD 3 0 :=
  ⟨C5_forbidden_byte_freedom.1 (List.replicate 302 0) (by decide),
   (C5_forbidden_byte_freedom.2.2.2 (List.replicate 45 0) (List.replicate 286 0)
      (List.replicate 12 0) (by decide) (by decide) (by decide)
      (fun i h19 h32 hmem => by
        rw [List.getD, List.get?_eq_getElem?, List.getElem?_replicate] at hmem
        revert hmem
        split <;> decide)).2⟩

lemma getD_vu32F_bytes (l : List Nat) (m v : Nat) (hlen : m + 3 < l.length) :
    (Value_Updater l (m + 3) v 32 false).getD m 0 = v % 256 ∧
    (Value_Updater l (m + 3) v 32 false).getD (m + 1) 0 = v >>> 8 % 256 ∧
    (Value_Updater l (m + 3) v 32 false).getD (m + 2) 0 = v >>> 16 % 256 ∧
    (Value_Updater l (m + 3) v 32 false).getD (m + 3) 0 = v >>> 24 % 256 := by
  rw [value_updater_32_false]
  rw [show m + 3 - 1 = m + 2 from by omega, show m + 3 - 2 = m + 1 from by omega,
    show m + 3 - 3 = m from by omega]
  refine ⟨getD_set_self _ _ _ (by simp only [List.length_set]; omega), ?_, ?_, ?_⟩
  · rw [getD_set_ne _ _ _ _ (by omega)]
    exact getD_set_self _ _ _ (by simp only [List.length_set]; omega)
  · rw [getD_set_ne _ _ _ _ (by omega), getD_set_ne _ _ _ _ (by omega)]
    exact getD_set_self _ _ _ (by simp only [List.length_set]; omega)
  · rw [getD_set_ne _ _ _ _ (by omega), getD_set_ne _ _ _ _ (by omega),
      getD_set_ne _ _ _ _ (by omega)]
    exact getD_set_self _ _ _ (by omega)

lemma getD_vu16F_bytes (l : List Nat) (m v : Nat) (hlen : m + 1 < l.length) :
    (Value_Updater l (m + 1) v 16 false).getD m 0 = v % 256 ∧
    (Value_Updater l (m + 1) v 16 false).getD (m + 1) 0 = v >>> 8 % 256 := by
  rw [value_updater_16_false]
  rw [show m + 1 - 1 = m from by omega]
  refine ⟨getD_set_self _ _ _ (by simp only [List.length_set]; omega), ?_⟩
  rw [getD_set_ne _ _ _ _ (by omega)]
  exact getD_set_self _ _ _ (by omega)

lemma findFrom_found (l pat : List Nat) (s : Nat) (h : findFrom l pat s ≠ l.length) :
    matchesAt l (findFrom l pat s) pat = true ∧ s ≤ findFrom l pat s := by
  have H : ∀ n s, n = l.length - s → findFrom l pat s ≠ l.length →
      matchesAt l (findFrom l pat s) pat = true ∧ s ≤ findFrom l pat s := by
    intro n
    induction n using Nat.strong_induction_on with
    | _ n ih =>
      intro s hn hne
      rw [findFrom_unfold] at hne ⊢
      by_cases h1 : l.length < s + pat.length
      · rw [if_pos h1] at hne
        exact absurd rfl hne
      · rw [if_neg h1] at hne ⊢
        by_cases h2 : matchesAt l s pat = true
        · rw [if_pos h2] at hne ⊢
          exact ⟨h2, le_refl s⟩
        · rw [if_neg h2] at hne ⊢
          have hp := pat_length_pos_of_not_matchesAt l s pat h2
          have := ih (l.length - (s + 1)) (by omega) (s + 1) rfl hne
          exact ⟨this.1, by omega⟩
  exact H _ s rfl h

/-- The sequence of four-byte little-endian offset writes performed by the
Fix_Zip_Offset loop, entry field k receiving value ps k at the four bytes
ending 45 past the central-directory signature position qs k. -/
def applyWrites (img ps qs : List Nat) : Nat → List Nat
  | 0 => img
  | k + 1 => Value_Updater (applyWrites img ps qs k) (qs.getD k 0 + 45) (ps.getD k 0) 32 false

lemma length_applyWrites (img ps qs : List Nat) :
    ∀ k, (applyWrites img ps qs k).length = img.length := by
  intro k
  induction k with
  | zero => rfl
  | succ k ih =>
    show (Value_Updater _ _ _ 32 false).length = _
    rw [length_value_updater, ih]

lemma applyWrites_getD_outside (img ps qs : List Nat) :
    ∀ (k t : Nat), (∀ j, j < k → t + 3 < qs.getD j 0 + 45 ∨ qs.getD j 0 + 45 < t) →
      (applyWrites img ps qs k).getD t 0 = img.getD t 0 := by
  intro k
  induction k with
  | zero => intro t h; rfl
  | succ k ih =>
    intro t h
    show (Value_Updater _ _ _ 32 false).getD t 0 = _
    rw [getD_vu32F_outside _ _ _ _ (h k (by omega))]
    exact ih t (fun j hj => h j (by omega))

lemma qs_chain (qs : List Nat)
    (hq46 : ∀ k, k + 1 < qs.length → qs.getD k 0 + 46 ≤ qs.getD (k + 1) 0) :
    ∀ a b, a ≤ b → b < qs.length → qs.getD a 0 + 46 * (b - a) ≤ qs.getD b 0 := by
  intro a
  have H : ∀ d b, b < qs.length → a ≤ b → b - a = d →
      qs.getD a 0 + 46 * d ≤ qs.getD b 0 := by
    intro d
    induction d with
    | zero =>
      intro b hb hab hd
      have hba : a = b := by omega
      subst hba
      omega
    | succ d ih =>
      intro b hb hab hd
      have h1 := ih (b - 1) (by omega) (by omega) (by omega)
      have h2 := hq46 (b - 1) (by omega)
      rw [show b - 1 + 1 = b from by omega] at h2
      omega
  intro b hab hb
  exact H (b - a) b hb hab rfl

lemma applyWrites_getD_written (img ps qs : List Nat)
    (hq46 : ∀ k, k + 1 < qs.length → qs.getD k 0 + 46 ≤ qs.getD (k + 1) 0) :
    ∀ k, k ≤ qs.length → ∀ j, j < k → qs.getD j 0 + 45 < img.length →
      (applyWrites img ps qs k).getD (qs.getD j 0 + 42) 0 = ps.getD j 0 % 256 ∧
      (applyWrites img ps qs k).getD (qs.getD j 0 + 43) 0 = ps.getD j 0 >>> 8 % 256 ∧
      (applyWrites img ps qs k).getD (qs.getD j 0 + 44) 0 = ps.getD j 0 >>> 16 % 256 ∧
      (applyWrites img ps qs k).getD (qs.getD j 0 + 45) 0 = ps.getD j 0 >>> 24 % 256 := by
  intro k
  induction k with
  | zero => intro hk j hj; exact absurd hj (by omega)
  | succ k ih =>
    intro hk j hj hql
    rcases Nat.lt_or_ge j k with hjk | hjk
    · have hch := qs_chain qs hq46 j k (by omega) (by omega)
      obtain ⟨b0, b1, b2, b3⟩ := ih (by omega) j hjk hql
      refine ⟨?_, ?_, ?_, ?_⟩
      · show (Value_Updater _ _ _ 32 false).getD _ 0 = _
        rw [getD_vu32F_outside _ _ _ _ (by omega)]
        exact b0
      · show (Value_Updater _ _ _ 32 false).getD _ 0 = _
        rw [getD_vu32F_outside _ _ _ _ (by omega)]
        exact b1
      · show (Value_Updater _ _ _ 32 false).getD _ 0 = _
        rw [getD_vu32F_outside _ _ _ _ (by omega)]
        exact b2
      · show (Value_Updater _ _ _ 32 false).getD _ 0 = _
        rw [getD_vu32F_outside _ _ _ _ (by omega)]
        exact b3
    · have hjeq : j = k := by omega
      subst hjeq
      obtain ⟨b0, b1, b2, b3⟩ := getD_vu32F_bytes (applyWrites img ps qs j)
        (qs.getD j 0 + 42) (ps.getD j 0)
        (by rw [length_applyWrites]; omega)
      rw [show qs.getD j 0 + 42 + 3 = qs.getD j 0 + 45 from by omega] at b3
      rw [show qs.getD j 0 + 42 + 2 = qs.getD j 0 + 44 from by omega] at b2
      rw [show qs.getD j 0 + 42 + 1 = qs.getD j 0 + 43 from by omega] at b1
      refine ⟨?_, ?_, ?_, ?_⟩
      · show (Value_Updater _ (qs.getD j 0 + 45) _ 32 false).getD _ 0 = _
        rw [show qs.getD j 0 + 45 = qs.getD j 0 + 42 + 3 from by omega]
        exact b0
      · show (Value_Updater _ (qs.getD j 0 + 45) _ 32 false).getD _ 0 = _
        rw [show qs.getD j 0 + 45 = qs.getD j 0 + 42 + 3 from by omega]
        exact b1
      · show (Value_Updater _ (qs.getD j 0 + 45) _ 32 false).getD _ 0 = _
        rw [show qs.getD j 0 + 45 = qs.getD j 0 + 42 + 3 from by omega]
        exact b2
      · show (Value_Updater _ (qs.getD j 0 + 45) _ 32 false).getD _ 0 = _
        rw [show qs.getD j 0 + 45 = qs.getD j 0 + 42 + 3 from by omega]
        exact b3

/-- A well-formed layout description of the zip region handled by
Fix_Zip_Offset: ps lists the successive local-file-header signature
positions the loop finds (each the first one after its predecessor), qs
the successive central-directory entry signature positions (each the
first one at or after the previous entry cursor), with the record count
of the end record equal to their number, entries spaced at least the
46-byte minimal entry size apart and all entry offset fields lying before
the end-record fields, local headers lying before the central directory,
and local positions small enough that their most significant offset byte
is zero. -/
structure FixLayout (img : List Nat) (idx : Nat) (ps qs : List Nat) : Prop where
  hlen32 : img.length < 2 ^ 32
  hE21 : END_CENTRAL_DIR_INDEX img idx + 21 < img.length
  hcount : ps.length = zip_records_read img idx
  hpq : qs.length = ps.length
  hps : ∀ k, k < ps.length → ps.getD k 0 =
    findFrom img ZIP_SIG ((if k = 0 then idx else ps.getD (k - 1) 0) + 1)
  hqs : ∀ k, k < qs.length → qs.getD k 0 =
    findFrom img START_CENTRAL_DIR_SIG
      (if k = 0 then START_CENTRAL_DIR_INDEX img idx - 1 else qs.getD (k - 1) 0 + 45)
  hq46 : ∀ k, k + 1 < qs.length → qs.getD k 0 + 46 ≤ qs.getD (k + 1) 0
  hqE : ∀ k, k < qs.length → qs.getD k 0 + 45 < END_CENTRAL_DIR_INDEX img idx + 16
  hpS : ∀ k, k < ps.length → ps.getD k 0 + 4 ≤ START_CENTRAL_DIR_INDEX img idx
  hp24 : ∀ k, k < ps.length → ps.getD k 0 < 2 ^ 24

lemma fixlayout_q_lb (img ps qs : List Nat) (idx : Nat) (H : FixLayout img idx ps qs) :
    ∀ j, j < qs.length → START_CENTRAL_DIR_INDEX img idx ≤ qs.getD j 0 + 1 := by
  intro j hj
  have h0 := H.hqs 0 (by omega)
  rw [if_pos rfl] at h0
  have hSle : START_CENTRAL_DIR_INDEX img idx ≤ img.length :=
    findFrom_le img START_CENTRAL_DIR_SIG idx
  have hge : START_CENTRAL_DIR_INDEX img idx - 1 ≤ qs.getD 0 0 := by
    rw [h0]
    exact findFrom_ge _ _ _ (by omega)
  have := qs_chain qs H.hq46 0 j (by omega) hj
  omega

lemma search_local_agree (img ps qs : List Nat) (idx : Nat) (H : FixLayout img idx ps qs)
    (B : List Nat) (hBlen : B.length = img.length)
    (hag : ∀ t, t ≤ START_CENTRAL_DIR_INDEX img idx + 3 → B.getD t 0 = img.getD t 0)
    (k : Nat) (hk : k < ps.length) :
    findFrom B ZIP_SIG ((if k = 0 then idx else ps.getD (k - 1) 0) + 1) = ps.getD k 0 ∧
    matchesAt B (ps.getD k 0) ZIP_SIG = true := by
  have hZ : ZIP_SIG.length = 4 := rfl
  have hSle : START_CENTRAL_DIR_INDEX img idx ≤ img.length :=
    findFrom_le img START_CENTRAL_DIR_SIG idx
  have horig : findFrom img ZIP_SIG ((if k = 0 then idx else ps.getD (k - 1) 0) + 1) =
      ps.getD k 0 := (H.hps k hk).symm
  have hpS := H.hpS k hk
  have hne : findFrom img ZIP_SIG ((if k = 0 then idx else ps.getD (k - 1) 0) + 1) ≠
      img.length := by rw [horig]; omega
  have hmatch := findFrom_found img ZIP_SIG _ hne
  rw [horig] at hmatch
  have hmB : matchesAt B (ps.getD k 0) ZIP_SIG = true := by
    rw [matchesAt_eq_of_agree img B _ _ hBlen
      (fun u hu1 hu2 => hag u (by rw [hZ] at hu2; omega))]
    exact hmatch.1
  refine ⟨?_, hmB⟩
  apply findFrom_eq_of
  · exact hmatch.2
  · exact hmB
  · rw [hBlen, hZ]
    omega
  · intro t ht1 ht2
    rw [matchesAt_eq_of_agree img B _ _ hBlen
      (fun u hu1 hu2 => hag u (by rw [hZ] at hu2; omega))]
    exact findFrom_min img ZIP_SIG _ t ht1 (by rw [horig]; exact ht2)

lemma fix_search_local (img ps qs : List Nat) (idx : Nat) (H : FixLayout img idx ps qs)
    (k : Nat) (hk : k < ps.length) :
    findFrom (applyWrites img ps qs k) ZIP_SIG
      ((if k = 0 then idx else ps.getD (k - 1) 0) + 1) = ps.getD k 0 := by
  refine (search_local_agree img ps qs idx H _ (length_applyWrites img ps qs k) ?_ k hk).1
  intro t ht
  apply applyWrites_getD_outside
  intro j hj
  left
  have := fixlayout_q_lb img ps qs idx H j (by rw [H.hpq]; omega)
  omega

lemma fix_search_cd (img ps qs : List Nat) (idx : Nat) (H : FixLayout img idx ps qs)
    (k : Nat) (hk : k < qs.length) :
    findFrom (applyWrites img ps qs k) START_CENTRAL_DIR_SIG
      (if k = 0 then START_CENTRAL_DIR_INDEX img idx - 1 else qs.getD (k - 1) 0 + 45) =
      qs.getD k 0 := by
  have hC : START_CENTRAL_DIR_SIG.length = 4 := rfl
  have hE21 := H.hE21
  have horig : findFrom img START_CENTRAL_DIR_SIG
      (if k = 0 then START_CENTRAL_DIR_INDEX img idx - 1 else qs.getD (k - 1) 0 + 45) =
      qs.getD k 0 := (H.hqs k hk).symm
  have hqE := H.hqE k hk
  have hne : findFrom img START_CENTRAL_DIR_SIG
      (if k = 0 then START_CENTRAL_DIR_INDEX img idx - 1 else qs.getD (k - 1) 0 + 45) ≠
      img.length := by rw [horig]; omega
  have hmatch := findFrom_found img START_CENTRAL_DIR_SIG _ hne
  rw [horig] at hmatch
  have hwr_lt : ∀ j, j < k → qs.getD j 0 + 45 < qs.getD k 0 := by
    intro j hj
    have h1 := qs_chain qs H.hq46 j (k - 1) (by omega) (by omega)
    have h2 := H.hq46 (k - 1) (by omega)
    rw [show k - 1 + 1 = k from by omega] at h2
    omega
  apply findFrom_eq_of
  · by_cases hk0 : k = 0
    · subst hk0
      rw [if_pos rfl]
      rw [if_pos rfl] at horig
      have hSle : START_CENTRAL_DIR_INDEX img idx ≤ img.length :=
        findFrom_le img START_CENTRAL_DIR_SIG idx
      rw [← horig]
      exact findFrom_ge _ _ _ (by omega)
    · rw [if_neg hk0]
      have := H.hq46 (k - 1) (by omega)
      rw [show k - 1 + 1 = k from by omega] at this
      omega
  · rw [matchesAt_eq_of_agree img _ _ _ (length_applyWrites img ps qs k) ?_]
    · exact hmatch.1
    · intro u hu1 hu2
      apply applyWrites_getD_outside
      intro j hj
      right
      have := hwr_lt j hj
      omega
  · rw [length_applyWrites, hC]
    omega
  · intro t ht1 ht2
    by_cases hk0 : k = 0
    · subst hk0
      show matchesAt (applyWrites img ps qs 0) t START_CENTRAL_DIR_SIG = false
      exact findFrom_min img _ _ t ht1 (by rw [horig]; exact ht2)
    · rw [if_neg hk0] at ht1
      have hkq : k - 1 < qs.length := by omega
      rcases Nat.eq_or_lt_of_le ht1 with heq | hlt
      · rcases Bool.eq_false_or_eq_true
          (matchesAt (applyWrites img ps qs k) t START_CENTRAL_DIR_SIG) with htr | hf
        swap
        · exact hf
        · exfalso
          have hb := getD_of_matchesAt _ _ _ 0 htr (by rw [hC]; omega)
          rw [Nat.add_zero] at hb
          have hcd0 : START_CENTRAL_DIR_SIG.getD 0 0 = 0x50 := rfl
          rw [hcd0] at hb
          have hql : qs.getD (k - 1) 0 + 45 < img.length := by
            have := H.hqE (k - 1) hkq
            omega
          have hw := (applyWrites_getD_written img ps qs H.hq46 k (by omega)
            (k - 1) (by omega) hql).2.2.2
          rw [← heq] at hb
          rw [hw] at hb
          have hp24 := H.hp24 (k - 1) (by rw [← H.hpq]; omega)
          have hz : ps.getD (k - 1) 0 >>> 24 = 0 := by
            rw [Nat.shiftRight_eq_div_pow]
            exact Nat.div_eq_of_lt hp24
          rw [hz] at hb
          simp at hb
      · rw [if_neg hk0] at horig
        rw [matchesAt_eq_of_agree img _ _ _ (length_applyWrites img ps qs k) ?_]
        · exact findFrom_min img START_CENTRAL_DIR_SIG (qs.getD (k - 1) 0 + 45) t
            (by omega) (by rw [horig]; exact ht2)
        · intro u hu1 hu2
          apply applyWrites_getD_outside
          intro j hj
          right
          have h1 := qs_chain qs H.hq46 j (k - 1) (by omega) (by omega)
          omega

lemma fix_loop_run (img ps qs : List Nat) (idx : Nat) (H : FixLayout img idx ps qs) :
    ∀ m k, k + m = ps.length →
      Fix_Zip_Offset_loop (applyWrites img ps qs k)
        (if k = 0 then idx else ps.getD (k - 1) 0)
        (if k = 0 then START_CENTRAL_DIR_INDEX img idx - 1 else qs.getD (k - 1) 0 + 45) m =
      applyWrites img ps qs ps.length := by
  intro m
  induction m with
  | zero =>
    intro k hk
    have hkeq : k = ps.length := by omega
    subst hkeq
    rfl
  | succ m ih =>
    intro k hk
    have hkps : k < ps.length := by omega
    have hkqs : k < qs.length := by rw [H.hpq]; exact hkps
    show Fix_Zip_Offset_loop
      (Value_Updater (applyWrites img ps qs k)
        (45 + findFrom (applyWrites img ps qs k) START_CENTRAL_DIR_SIG _)
        (findFrom (applyWrites img ps qs k) ZIP_SIG _) 32 false)
      (findFrom (applyWrites img ps qs k) ZIP_SIG _)
      (45 + findFrom (applyWrites img ps qs k) START_CENTRAL_DIR_SIG _) m = _
    rw [fix_search_local img ps qs idx H k hkps, fix_search_cd img ps qs idx H k hkqs,
      Nat.add_comm 45 (qs.getD k 0)]
    have hnext := ih (k + 1) (by omega)
    rw [if_neg (Nat.succ_ne_zero k), if_neg (Nat.succ_ne_zero k),
      Nat.succ_sub_one] at hnext
    exact hnext

lemma fix_loop_eq (img ps qs : List Nat) (idx : Nat) (H : FixLayout img idx ps qs) :
    Fix_Zip_Offset_loop img idx (START_CENTRAL_DIR_INDEX img idx - 1)
      (zip_records_read img idx) = applyWrites img ps qs ps.length := by
  have h0 := fix_loop_run img ps qs idx H ps.length 0 (by omega)
  rw [if_pos rfl, if_pos rfl] at h0
  rw [← H.hcount]
  exact h0

lemma fix_eq (img ps qs : List Nat) (idx : Nat) (H : FixLayout img idx ps qs) :
    Fix_Zip_Offset img idx =
      Value_Updater
        (Value_Updater (applyWrites img ps qs ps.length)
          (END_CENTRAL_DIR_INDEX img idx + 19) (START_CENTRAL_DIR_INDEX img idx) 32 false)
        (END_CENTRAL_DIR_INDEX img idx + 21)
        (16 + (img.getD (END_CENTRAL_DIR_INDEX img idx + 21) 0 * 256 +
          img.getD (END_CENTRAL_DIR_INDEX img idx + 20) 0)) 16 false := by
  have hread : ∀ u, END_CENTRAL_DIR_INDEX img idx + 20 ≤ u →
      (Value_Updater (applyWrites img ps qs ps.length)
        (END_CENTRAL_DIR_INDEX img idx + 19) (START_CENTRAL_DIR_INDEX img idx)
        32 false).getD u 0 = img.getD u 0 := by
    intro u hu
    rw [getD_vu32F_outside _ _ _ _ (by omega)]
    apply applyWrites_getD_outside
    intro j hj
    right
    have := H.hqE j (by rw [H.hpq]; omega)
    omega
  simp only [Fix_Zip_Offset]
  rw [fix_loop_eq img ps qs idx H]
  rw [show END_CENTRAL_DIR_INDEX img idx + 21 - 1 = END_CENTRAL_DIR_INDEX img idx + 20
    from by omega]
  rw [hread (END_CENTRAL_DIR_INDEX img idx + 21) (by omega),
    hread (END_CENTRAL_DIR_INDEX img idx + 20) (by omega)]

lemma le32_recombine (p : Nat) (hp : p < 2 ^ 32) :
    p % 256 + p >>> 8 % 256 * 256 + p >>> 16 % 256 * 65536 + p >>> 24 % 256 * 16777216 =
      p := by
  have h8 : p >>> 8 = p / 256 := by
    rw [Nat.shiftRight_eq_div_pow]
  have h16 : p >>> 16 = p / 65536 := by
    rw [Nat.shiftRight_eq_div_pow]
  have h24 : p >>> 24 = p / 16777216 := by
    rw [Nat.shiftRight_eq_div_pow]
  have hp2 : p < 4294967296 := by
    have : (2 : Nat) ^ 32 = 4294967296 := by norm_num
    omega
  rw [h8, h16, h24]
  omega

lemma fix_entry_field (img ps qs : List Nat) (idx : Nat) (H : FixLayout img idx ps qs)
    (k : Nat) (hk : k < ps.length) :
    rd32LE (Fix_Zip_Offset img idx) (qs.getD k 0 + 42) = ps.getD k 0 := by
  rw [fix_eq img ps qs idx H]
  have hkqs : k < qs.length := by rw [H.hpq]; exact hk
  have hqE := H.hqE k hkqs
  have hE21 := H.hE21
  have hql : qs.getD k 0 + 45 < img.length := by omega
  obtain ⟨b0, b1, b2, b3⟩ := applyWrites_getD_written img ps qs H.hq46 ps.length
    (by rw [H.hpq]) k hk hql
  unfold rd32LE
  rw [show qs.getD k 0 + 42 + 1 = qs.getD k 0 + 43 from by omega,
    show qs.getD k 0 + 42 + 2 = qs.getD k 0 + 44 from by omega,
    show qs.getD k 0 + 42 + 3 = qs.getD k 0 + 45 from by omega]
  rw [getD_vu16F_outside _ _ _ _ (by omega), getD_vu32F_outside _ _ _ _ (by omega),
    getD_vu16F_outside _ _ _ _ (by omega), getD_vu32F_outside _ _ _ _ (by omega),
    getD_vu16F_outside _ _ _ _ (by omega), getD_vu32F_outside _ _ _ _ (by omega),
    getD_vu16F_outside _ _ _ _ (by omega), getD_vu32F_outside _ _ _ _ (by omega)]
  rw [b0, b1, b2, b3]
  exact le32_recombine _ (by have := H.hp24 k hk; omega)

lemma fix_eocd_field (img ps qs : List Nat) (idx : Nat) (H : FixLayout img idx ps qs) :
    rd32LE (Fix_Zip_Offset img idx) (END_CENTRAL_DIR_INDEX img idx + 16) =
      START_CENTRAL_DIR_INDEX img idx := by
  rw [fix_eq img ps qs idx H]
  have hE21 := H.hE21
  obtain ⟨b0, b1, b2, b3⟩ := getD_vu32F_bytes (applyWrites img ps qs ps.length)
    (END_CENTRAL_DIR_INDEX img idx + 16) (START_CENTRAL_DIR_INDEX img idx)
    (by rw [length_applyWrites]; omega)
  unfold rd32LE
  rw [getD_vu16F_outside _ _ _ _ (by omega), getD_vu16F_outside _ _ _ _ (by omega),
    getD_vu16F_outside _ _ _ _ (by omega), getD_vu16F_outside _ _ _ _ (by omega)]
  rw [show END_CENTRAL_DIR_INDEX img idx + 19 = END_CENTRAL_DIR_INDEX img idx + 16 + 3
    from by omega]
  rw [b0, b1, b2, b3]
  apply le32_recombine
  have hSle : START_CENTRAL_DIR_INDEX img idx ≤ img.length :=
    findFrom_le img START_CENTRAL_DIR_SIG idx
  have := H.hlen32
  omega

lemma fix_out_agree_low (img ps qs : List Nat) (idx : Nat) (H : FixLayout img idx ps qs)
    (t : Nat) (ht : t ≤ START_CENTRAL_DIR_INDEX img idx + 3) :
    (Fix_Zip_Offset img idx).getD t 0 = img.getD t 0 := by
  rw [fix_eq img ps qs idx H]
  have hSle : START_CENTRAL_DIR_INDEX img idx ≤ img.length :=
    findFrom_le img START_CENTRAL_DIR_SIG idx
  have hES : START_CENTRAL_DIR_INDEX img idx ≤ END_CENTRAL_DIR_INDEX img idx :=
    findFrom_ge img END_CENTRAL_DIR_SIG _ hSle
  rw [getD_vu16F_outside _ _ _ _ (by omega), getD_vu32F_outside _ _ _ _ (by omega)]
  apply applyWrites_getD_outside
  intro j hj
  left
  have := fixlayout_q_lb img ps qs idx H j (by rw [H.hpq]; exact hj)
  omega

lemma fix_local_sig (img ps qs : List Nat) (idx : Nat) (H : FixLayout img idx ps qs)
    (k : Nat) (hk : k < ps.length) :
    findFrom (Fix_Zip_Offset img idx) ZIP_SIG
      ((if k = 0 then idx else ps.getD (k - 1) 0) + 1) = ps.getD k 0 ∧
    matchesAt (Fix_Zip_Offset img idx) (ps.getD k 0) ZIP_SIG = true :=
  search_local_agree img ps qs idx H _ (length_fix img idx)
    (fix_out_agree_low img ps qs idx H) k hk

lemma fix_first_cd (img ps qs : List Nat) (idx : Nat) (H : FixLayout img idx ps qs) :
    findFrom (Fix_Zip_Offset img idx) START_CENTRAL_DIR_SIG idx =
      START_CENTRAL_DIR_INDEX img idx ∧
    matchesAt (Fix_Zip_Offset img idx) (START_CENTRAL_DIR_INDEX img idx)
      START_CENTRAL_DIR_SIG = true := by
  have hC : START_CENTRAL_DIR_SIG.length = 4 := rfl
  have hSdef : START_CENTRAL_DIR_INDEX img idx =
      findFrom img START_CENTRAL_DIR_SIG idx := rfl
  have hSle : START_CENTRAL_DIR_INDEX img idx ≤ img.length :=
    findFrom_le img START_CENTRAL_DIR_SIG idx
  have hES : START_CENTRAL_DIR_INDEX img idx ≤ END_CENTRAL_DIR_INDEX img idx :=
    findFrom_ge img END_CENTRAL_DIR_SIG _ hSle
  have hE21 := H.hE21
  have hne : findFrom img START_CENTRAL_DIR_SIG idx ≠ img.length := by
    rw [← hSdef]
    omega
  have hmatch := findFrom_found img START_CENTRAL_DIR_SIG idx hne
  rw [← hSdef] at hmatch
  have hmB : matchesAt (Fix_Zip_Offset img idx) (START_CENTRAL_DIR_INDEX img idx)
      START_CENTRAL_DIR_SIG = true := by
    rw [matchesAt_eq_of_agree img _ _ _ (length_fix img idx)
      (fun u hu1 hu2 => fix_out_agree_low img ps qs idx H u (by rw [hC] at hu2; omega))]
    exact hmatch.1
  refine ⟨?_, hmB⟩
  apply findFrom_eq_of
  · exact hmatch.2
  · exact hmB
  · rw [length_fix, hC]
    omega
  · intro t ht1 ht2
    rw [matchesAt_eq_of_agree img _ _ _ (length_fix img idx)
      (fun u hu1 hu2 => fix_out_agree_low img ps qs idx H u (by rw [hC] at hu2; omega))]
    exact findFrom_min img START_CENTRAL_DIR_SIG idx t ht1 (by rw [← hSdef]; exact ht2)

lemma le16_recombine (c : Nat) : c % 256 + c >>> 8 % 256 * 256 = c % 65536 := by
  have h8 : c >>> 8 = c / 256 := by
    rw [Nat.shiftRight_eq_div_pow]
  rw [h8]
  omega

lemma fix_comment_field (img ps qs : List Nat) (idx : Nat) (H : FixLayout img idx ps qs) :
    rd16LE (Fix_Zip_Offset img idx) (END_CENTRAL_DIR_INDEX img idx + 20) =
      (16 + rd16LE img (END_CENTRAL_DIR_INDEX img idx + 20)) % 65536 := by
  rw [fix_eq img ps qs idx H]
  have hE21 := H.hE21
  obtain ⟨b0, b1⟩ := getD_vu16F_bytes
    (Value_Updater (applyWrites img ps qs ps.length)
      (END_CENTRAL_DIR_INDEX img idx + 19) (START_CENTRAL_DIR_INDEX img idx) 32 false)
    (END_CENTRAL_DIR_INDEX img idx + 20)
    (16 + (img.getD (END_CENTRAL_DIR_INDEX img idx + 21) 0 * 256 +
      img.getD (END_CENTRAL_DIR_INDEX img idx + 20) 0))
    (by rw [length_value_updater, length_applyWrites]; omega)
  unfold rd16LE
  rw [show END_CENTRAL_DIR_INDEX img idx + 20 + 1 = END_CENTRAL_DIR_INDEX img idx + 21
    from by omega] at b1 ⊢
  rw [b0, b1]
  rw [le16_recombine]
  congr 1
  omega

/-- A concrete 40-byte buffer for the C6 record-count read: the
central-directory signature sits at 4, the end record signature at 20,
and the bytes at offsets 10, 11, 12 past the end signature are 2, 0, 7. -/
def c6img : List Nat :=
  List.replicate 4 0 ++ [0x50, 0x4B, 0x01, 0x02] ++ List.replicate 12 0 ++
    [0x50, 0x4B, 0x05, 0x06] ++ List.replicate 6 0 ++ [2, 0, 7] ++ List.replicate 7 0

/-- A concrete 135-byte buffer with the layout Fix_Zip_Offset expects: a
local-file signature at 4, a central-directory signature at 60, the end
record signature at 110, record count 1 at bytes 120..121 and comment
length 5 at bytes 130..131. -/
def fixImg : List Nat :=
  List.replicate 4 0 ++ [0x50, 0x4B, 0x03, 0x04] ++ List.replicate 52 0 ++
    [0x50, 0x4B, 0x01, 0x02] ++ List.replicate 46 0 ++ [0x50, 0x4B, 0x05, 0x06] ++
    List.replicate 6 0 ++ [1, 0] ++ List.replicate 8 0 ++ [5, 0] ++ List.replicate 3 0

/-- The same buffer with the largest comment lengths: bytes 130..131 hold
0xFFF0 = 65520 little-endian. -/
def fixImg2 : List Nat :=
  List.replicate 4 0 ++ [0x50, 0x4B, 0x03, 0x04] ++ List.replicate 52 0 ++
    [0x50, 0x4B, 0x01, 0x02] ++ List.replicate 46 0 ++ [0x50, 0x4B, 0x05, 0x06] ++
    List.replicate 6 0 ++ [1, 0] ++ List.replicate 8 0 ++ [0xF0, 0xFF] ++
    List.replicate 3 0

/-- C2: for every buffer whose zip region is well formed in the sense of
FixLayout (the record count names the successive signature positions ps
and qs that the fixer's searches traverse, entries are at least 46 bytes
apart, entry fields lie before the end-record fields, local headers lie
below the central directory and below 2^24), the output of Fix_Zip_Offset
carries in each central-directory entry's offset field (the four bytes
ending 45 past the entry signature) the little-endian position of the
nearest following local-file signature 50 4B 03 04 of the output (which is
ps k, still a signature there), and the end record's start-of-central-
directory field (the four bytes ending 19 past the end signature) holds
the position of the first central-directory signature 50 4B 01 02 of the
output. -/
theorem C2_zip_offset_consistency (img ps qs : List Nat) (idx : Nat)
    (H : FixLayout img idx ps qs) :
    (∀ k, k < ps.length →
      rd32LE (Fix_Zip_Offset img idx) (qs.getD k 0 + 42) = ps.getD k 0 ∧
      findFrom (Fix_Zip_Offset img idx) ZIP_SIG
        ((if k = 0 then idx else ps.getD (k - 1) 0) + 1) = ps.getD k 0 ∧
      matchesAt (Fix_Zip_Offset img idx) (ps.getD k 0) ZIP_SIG = true) ∧
    rd32LE (Fix_Zip_Offset img idx) (END_CENTRAL_DIR_INDEX img idx + 16) =
      START_CENTRAL_DIR_INDEX img idx ∧
    findFrom (Fix_Zip_Offset img idx) START_CENTRAL_DIR_SIG idx =
      START_CENTRAL_DIR_INDEX img idx ∧
    matchesAt (Fix_Zip_Offset img idx) (START_CENTRAL_DIR_INDEX img idx)
      START_CENTRAL_DIR_SIG = true := by
  refine ⟨?_, fix_eocd_field img ps qs idx H, (fix_first_cd img ps qs idx H).1,
    (fix_first_cd img ps qs idx H).2⟩
  intro k hk
  exact ⟨fix_entry_field img ps qs idx H k hk, (fix_local_sig img ps qs idx H k hk).1,
    (fix_local_sig img ps qs idx H k hk).2⟩

/-- Witness for C2 on the concrete buffer: the entry offset field at
102..105 receives 4, the position of the local signature, and the end
record field at 126..129 receives 60, the central-directory position. -/
theorem C2_zip_offset_consistency_witness :
    rd32LE (Fix_Zip_Offset fixImg 2) 102 = 4 ∧
    rd32LE (Fix_Zip_Offset fixImg 2) 126 = 60 := by
  have H : FixLayout fixImg 2 [4] [60] :=
    ⟨by decide, by decide, by decide, by decide, by decide, by decide,
      by intro k hk; simp at hk, by decide, by decide, by decide⟩
  exact ⟨((C2_zip_offset_consistency fixImg [4] [60] 2 H).1 0 (by decide)).1,
    (C2_zip_offset_consistency fixImg [4] [60] 2 H).2.1⟩

/-- C6 counterexample: on a concrete buffer whose end-of-central-directory
record holds the bytes 2, 0, 7 at offsets 10, 11, 12 past the signature,
the fixer's record count is 2, read from offsets 10..11, and not the
value 1792 that a little-endian read at offsets 11..12 would give. -/
theorem C6_cex_record_count_offsets :
    zip_records_read c6img 0 = 2 ∧
    c6img.getD (END_CENTRAL_DIR_INDEX c6img 0 + 11) 0 +
      256 * c6img.getD (END_CENTRAL_DIR_INDEX c6img 0 + 12) 0 = 1792 ∧
    ¬zip_records_read c6img 0 =
      c6img.getD (END_CENTRAL_DIR_INDEX c6img 0 + 11) 0 +
        256 * c6img.getD (END_CENTRAL_DIR_INDEX c6img 0 + 12) 0 :=
  ⟨by decide, by decide, by decide⟩

/-- C6 amended: the fixer reads the record count as a 16-bit little-endian
value from the bytes at offsets 10 and 11 past the first byte of the
end-of-central-directory signature (not 11 and 12), and for every buffer
with a well-formed layout its loop performs exactly that many entry
offset-field rewrites: the loop output equals the count-fold of four-byte
offset writes applyWrites. -/
theorem C6_amended_record_count (img ps qs : List Nat) (idx : Nat)
    (H : FixLayout img idx ps qs) :
    zip_records_read img idx =
      img.getD (END_CENTRAL_DIR_INDEX img idx + 10) 0 +
        256 * img.getD (END_CENTRAL_DIR_INDEX img idx + 11) 0 ∧
    ps.length = zip_records_read img idx ∧
    Fix_Zip_Offset_loop img idx (START_CENTRAL_DIR_INDEX img idx - 1)
      (zip_records_read img idx) = applyWrites img ps qs ps.length := by
  refine ⟨?_, H.hcount, fix_loop_eq img ps qs idx H⟩
  unfold zip_records_read
  rw [show END_CENTRAL_DIR_INDEX img idx + 11 - 1 = END_CENTRAL_DIR_INDEX img idx + 10
    from by omega]
  omega

/-- Witness for C6 on the concrete buffer: the count read at 120..121 is
1 and the loop output is the single four-byte offset write. -/
theorem C6_amended_record_count_witness :
    zip_records_read fixImg 2 = 1 ∧
    Fix_Zip_Offset_loop fixImg 2 (START_CENTRAL_DIR_INDEX fixImg 2 - 1)
      (zip_records_read fixImg 2) = applyWrites fixImg [4] [60] 1 := by
  have H : FixLayout fixImg 2 [4] [60] :=
    ⟨by decide, by decide, by decide, by decide, by decide, by decide,
      by intro k hk; simp at hk, by decide, by decide, by decide⟩
  obtain ⟨h1, h2, h3⟩ := C6_amended_record_count fixImg [4] [60] 2 H
  exact ⟨h2.symm, h3⟩

/-- C10: for every buffer with a well-formed layout and byte-valued comment
field, the fixer stores as new comment length the old 16-bit little-endian
comment length (read 20 bytes past the end signature) plus 16, reduced
modulo 2^16 by the 16-bit write; when the old length is at least 65520 the
stored value wraps and is smaller than the old one. -/
theorem C10_comment_length_wrap (img ps qs : List Nat) (idx : Nat)
    (H : FixLayout img idx ps qs)
    (hb : img.getD (END_CENTRAL_DIR_INDEX img idx + 20) 0 < 256 ∧
      img.getD (END_CENTRAL_DIR_INDEX img idx + 21) 0 < 256) :
    rd16LE (Fix_Zip_Offset img idx) (END_CENTRAL_DIR_INDEX img idx + 20) =
      (rd16LE img (END_CENTRAL_DIR_INDEX img idx + 20) + 16) % 2 ^ 16 ∧
    (65520 ≤ rd16LE img (END_CENTRAL_DIR_INDEX img idx + 20) →
      rd16LE (Fix_Zip_Offset img idx) (END_CENTRAL_DIR_INDEX img idx + 20) <
        rd16LE img (END_CENTRAL_DIR_INDEX img idx + 20)) := by
  have hc := fix_comment_field img ps qs idx H
  have hub : rd16LE img (END_CENTRAL_DIR_INDEX img idx + 20) < 65536 := by
    unfold rd16LE
    rw [show END_CENTRAL_DIR_INDEX img idx + 20 + 1 = END_CENTRAL_DIR_INDEX img idx + 21
      from by omega]
    have h1 := hb.1
    have h2 := hb.2
    omega
  constructor
  · rw [hc, show (2 : Nat) ^ 16 = 65536 from by norm_num]
    congr 1
    omega
  · intro hge
    rw [hc]
    omega

/-- Witness for C10 on the concrete buffer with comment length 65520: the
stored comment length wraps to 0, smaller than the old value. -/
theorem C10_comment_length_wrap_witness :
    rd16LE (Fix_Zip_Offset fixImg2 2) 130 = 0 ∧
    rd16LE (Fix_Zip_Offset fixImg2 2) 130 < rd16LE fixImg2 130 := by
  have H : FixLayout fixImg2 2 [4] [60] :=
    ⟨by decide, by decide, by decide, by decide, by decide, by decide,
      by intro k hk; simp at hk, by decide, by decide, by decide⟩
  have h := C10_comment_length_wrap fixImg2 [4] [60] 2 H ⟨by decide, by decide⟩
  exact ⟨h.1.trans (by decide), h.2 (by decide)⟩

/-- A concrete 77-byte PNG: 68 x 68 truecolor IHDR whose stored CRC bytes
are zeroed (corrupt), one 20-byte IDAT chunk with a correct CRC, and an
IEND chunk; it passes every check of the program. -/
def cimg : List Nat := [
  137, 80, 78, 71, 13, 10, 26, 10, 0, 0, 0, 13, 73, 72, 68, 82,
  0, 0, 0, 68, 0, 0, 0, 68, 8, 2, 0, 0, 0, 0, 0, 0,
  0, 0, 0, 0, 20, 73, 68, 65, 84, 0, 0, 0, 0, 0, 0, 0,
  0, 0, 0, 0, 0, 0, 0, 0, 0, 0, 0, 0, 0, 163, 57, 205,
  14, 0, 0, 0, 0, 73, 69, 78, 68, 174, 66, 96, 130]

/-- A concrete 106-byte ZIP with a single entry named a.qq: a local file
header at 0, one central-directory entry at 34 and the end record at 84. -/
def czip : List Nat := [
  80, 75, 3, 4, 0, 0, 0, 0, 0, 0, 0, 0, 0, 0, 0, 0,
  0, 0, 0, 0, 0, 0, 0, 0, 0, 0, 4, 0, 0, 0, 97, 46,
  113, 113, 80, 75, 1, 2, 0, 0, 0, 0, 0, 0, 0, 0, 0, 0,
  0, 0, 0, 0, 0, 0, 0, 0, 0, 0, 0, 0, 0, 0, 4, 0,
  0, 0, 0, 0, 0, 0, 0, 0, 0, 0, 0, 0, 0, 0, 0, 0,
  97, 46, 113, 113, 80, 75, 5, 6, 0, 0, 0, 0, 1, 0, 1, 0,
  50, 0, 0, 0, 34, 0, 0, 0, 0, 0]

/-- The output buffer of a successful build; the empty list on error. -/
def build_output (image zipfile args_linux args_windows : List Nat) : List Nat :=
  match pdvzip_build image zipfile args_linux args_windows with
  | .ok v => v
  | .error _ => []

/-- PNG chunk type IHDR. -/
def IHDR_TYPE : List Nat := [0x49, 0x48, 0x44, 0x52]

/-- PNG chunk type iCCP. -/
def ICCP_TYPE : List Nat := [0x69, 0x43, 0x43, 0x50]

/-- PNG chunk type IEND. -/
def IEND_TYPE : List Nat := [0x49, 0x45, 0x4E, 0x44]

/-- Spec-side PNG chunk walker (from the claim's words, not the source):
read the big-endian length, record the four type bytes, skip length + 12
bytes to the next chunk; stops when fewer than 12 bytes remain.  The fuel
only bounds the recursion and exceeds the chunk count whenever it is at
least the buffer length. -/
def chunkTypesAux : Nat → List Nat → List (List Nat)
  | 0, _ => []
  | fuel + 1, rest =>
    if rest.length < 12 then []
    else slice rest 4 4 :: chunkTypesAux fuel (rest.drop (rd32BE rest 0 + 12))

/-- Spec-side decoder: the chunk type sequence of a PNG buffer, walking
from byte 8 past the file signature. -/
def png_chunk_types (out : List Nat) : List (List Nat) :=
  chunkTypesAux out.length (out.drop 8)

/-- The 24-bit PLTE length read of Erase_Image_Chunks, bytes 1..3 of the
chunk length field. -/
def plte_len24 (img : List Nat) (p : Nat) : Nat :=
  img.getD (p + 1) 0 * 65536 + img.getD (p + 2) 0 * 256 + img.getD (p + 3) 0

/-- The IDAT chain visited by the copying loop of Erase_Image_Chunks: d is
the current chunk index, the listed indices are the chunks the loop will
copy (each found by the search from its predecessor plus 6), and past the
last one the search is exhausted so the loop guard stops. -/
def chainFrom (img : List Nat) : Nat → List Nat → Bool
  | d, [] => decide (img.length ≤ d + 4)
  | d, e :: rest =>
    decide (d = e) && decide (d + 4 < img.length) &&
      chainFrom img (findFrom img IDAT_SIG (d + 6) - 4) rest

lemma erase_loop_run (img : List Nat) :
    ∀ (ds : List Nat) (d : Nat) (acc : List Nat), chainFrom img d ds = true →
      Erase_idat_loop img img.length d acc =
        acc ++ (ds.map (fun e => slice img e (rd32BE img e + 12))).flatten := by
  intro ds
  induction ds with
  | nil =>
    intro d acc h
    simp only [chainFrom, decide_eq_true_eq] at h
    rw [erase_idat_loop_unfold, if_pos (Or.inl h)]
    simp
  | cons e rest ih =>
    intro d acc h
    simp only [chainFrom, Bool.and_eq_true, decide_eq_true_eq] at h
    obtain ⟨⟨hde, hdlt⟩, hrest⟩ := h
    subst hde
    rw [erase_idat_loop_unfold, if_neg (by omega)]
    rw [ih _ _ hrest]
    simp [List.append_assoc]

lemma erase_chunks_plain (img ds : List Nat)
    (hchain : chainFrom img (findFrom img IDAT_SIG 0 - 4) ds = true)
    (hcrc : rd32BE img (findFrom img IDAT_SIG 0 - 4 +
        rd32BE img (findFrom img IDAT_SIG 0 - 4) + 8) =
      Crc (slice img (findFrom img IDAT_SIG 0 - 4 + 4)
        (rd32BE img (findFrom img IDAT_SIG 0 - 4) + 4)))
    (h3 : ¬img.getD 25 0 = 3) :
    Erase_Image_Chunks img = Except.ok (img.take 33 ++
      (ds.map (fun e => slice img e (rd32BE img e + 12))).flatten ++
      img.drop (img.length - 12)) := by
  simp only [Erase_Image_Chunks]
  rw [if_neg (not_not_intro hcrc), if_neg h3]
  rw [erase_loop_run img ds _ _ hchain]

lemma erase_chunks_plte (img ds : List Nat)
    (hchain : chainFrom img (findFrom img IDAT_SIG 0 - 4) ds = true)
    (hcrc : rd32BE img (findFrom img IDAT_SIG 0 - 4 +
        rd32BE img (findFrom img IDAT_SIG 0 - 4) + 8) =
      Crc (slice img (findFrom img IDAT_SIG 0 - 4 + 4)
        (rd32BE img (findFrom img IDAT_SIG 0 - 4) + 4)))
    (h3 : img.getD 25 0 = 3)
    (hplte : findFrom img PLTE_SIG 0 - 4 < findFrom img IDAT_SIG 0 - 4) :
    Erase_Image_Chunks img = Except.ok (img.take 33 ++
      slice img (findFrom img PLTE_SIG 0 - 4)
        (plte_len24 img (findFrom img PLTE_SIG 0 - 4) + 12) ++
      (ds.map (fun e => slice img e (rd32BE img e + 12))).flatten ++
      img.drop (img.length - 12)) := by
  simp only [Erase_Image_Chunks]
  rw [if_neg (not_not_intro hcrc), if_pos h3, if_pos hplte]
  rw [erase_loop_run img ds _ _ hchain]
  rw [plte_len24]

/-- The 306 type-and-data bytes of the iCCP chunk of the concrete build
output (offsets 37..342). -/
def iccp_body : List Nat := [
  105, 67, 67, 80, 115, 99, 114, 0, 0, 13, 82, 69, 77, 59, 99, 108,
  101, 97, 114, 59, 109, 107, 100, 105, 114, 32, 46, 47, 112, 100, 118, 122,
  105, 112, 95, 101, 120, 116, 114, 97, 99, 116, 101, 100, 59, 109, 118, 32,
  34, 36, 48, 34, 32, 46, 47, 112, 100, 118, 122, 105, 112, 95, 101, 120,
  116, 114, 97, 99, 116, 101, 100, 59, 99, 100, 32, 46, 47, 112, 100, 118,
  122, 105, 112, 95, 101, 120, 116, 114, 97, 99, 116, 101, 100, 59, 117, 110,
  122, 105, 112, 32, 45, 113, 111, 32, 34, 36, 48, 34, 59, 99, 108, 101,
  97, 114, 59, 120, 100, 103, 45, 111, 112, 101, 110, 32, 34, 97, 46, 113,
  113, 34, 59, 101, 120, 105, 116, 59, 13, 10, 35, 38, 99, 108, 115, 38,
  109, 107, 100, 105, 114, 32, 46, 92, 112, 100, 118, 122, 105, 112, 95, 101,
  120, 116, 114, 97, 99, 116, 101, 100, 38, 109, 111, 118, 101, 32, 34, 37,
  126, 100, 112, 110, 120, 48, 34, 32, 46, 92, 112, 100, 118, 122, 105, 112,
  95, 101, 120, 116, 114, 97, 99, 116, 101, 100, 38, 99, 100, 32, 46, 92,
  112, 100, 118, 122, 105, 112, 95, 101, 120, 116, 114, 97, 99, 116, 101, 100,
  38, 99, 108, 115, 38, 116, 97, 114, 32, 45, 120, 102, 32, 34, 37, 126,
  110, 48, 37, 126, 120, 48, 34, 38, 112, 111, 119, 101, 114, 115, 104, 101,
  108, 108, 59, 73, 110, 118, 111, 107, 101, 45, 73, 116, 101, 109, 32, 32,
  34, 97, 46, 113, 113, 34, 38, 114, 101, 110, 32, 34, 37, 126, 110, 48,
  37, 126, 120, 48, 34, 32, 42, 46, 112, 110, 103, 38, 101, 120, 105, 116,
  13, 10]

/-- The composed script vector after the length fix, before the CRC
write (its last four bytes still the placeholder). -/
def script_pre : List Nat := [
  0, 0, 1, 46, 105, 67, 67, 80, 115, 99, 114, 0, 0, 13, 82, 69,
  77, 59, 99, 108, 101, 97, 114, 59, 109, 107, 100, 105, 114, 32, 46, 47,
  112, 100, 118, 122, 105, 112, 95, 101, 120, 116, 114, 97, 99, 116, 101, 100,
  59, 109, 118, 32, 34, 36, 48, 34, 32, 46, 47, 112, 100, 118, 122, 105,
  112, 95, 101, 120, 116, 114, 97, 99, 116, 101, 100, 59, 99, 100, 32, 46,
  47, 112, 100, 118, 122, 105, 112, 95, 101, 120, 116, 114, 97, 99, 116, 101,
  100, 59, 117, 110, 122, 105, 112, 32, 45, 113, 111, 32, 34, 36, 48, 34,
  59, 99, 108, 101, 97, 114, 59, 120, 100, 103, 45, 111, 112, 101, 110, 32,
  34, 97, 46, 113, 113, 34, 59, 101, 120, 105, 116, 59, 13, 10, 35, 38,
  99, 108, 115, 38, 109, 107, 100, 105, 114, 32, 46, 92, 112, 100, 118, 122,
  105, 112, 95, 101, 120, 116, 114, 97, 99, 116, 101, 100, 38, 109, 111, 118,
  101, 32, 34, 37, 126, 100, 112, 110, 120, 48, 34, 32, 46, 92, 112, 100,
  118, 122, 105, 112, 95, 101, 120, 116, 114, 97, 99, 116, 101, 100, 38, 99,
  100, 32, 46, 92, 112, 100, 118, 122, 105, 112, 95, 101, 120, 116, 114, 97,
  99, 116, 101, 100, 38, 99, 108, 115, 38, 116, 97, 114, 32, 45, 120, 102,
  32, 34, 37, 126, 110, 48, 37, 126, 120, 48, 34, 38, 112, 111, 119, 101,
  114, 115, 104, 101, 108, 108, 59, 73, 110, 118, 111, 107, 101, 45, 73, 116,
  101, 109, 32, 32, 34, 97, 46, 113, 113, 34, 38, 114, 101, 110, 32, 34,
  37, 126, 110, 48, 37, 126, 120, 48, 34, 32, 42, 46, 112, 110, 103, 38,
  101, 120, 105, 116, 13, 10, 0, 0, 0, 0]

/-- The composed script vector after the CRC write. -/
def script_fin : List Nat := [
  0, 0, 1, 46, 105, 67, 67, 80, 115, 99, 114, 0, 0, 13, 82, 69,
  77, 59, 99, 108, 101, 97, 114, 59, 109, 107, 100, 105, 114, 32, 46, 47,
  112, 100, 118, 122, 105, 112, 95, 101, 120, 116, 114, 97, 99, 116, 101, 100,
  59, 109, 118, 32, 34, 36, 48, 34, 32, 46, 47, 112, 100, 118, 122, 105,
  112, 95, 101, 120, 116, 114, 97, 99, 116, 101, 100, 59, 99, 100, 32, 46,
  47, 112, 100, 118, 122, 105, 112, 95, 101, 120, 116, 114, 97, 99, 116, 101,
  100, 59, 117, 110, 122, 105, 112, 32, 45, 113, 111, 32, 34, 36, 48, 34,
  59, 99, 108, 101, 97, 114, 59, 120, 100, 103, 45, 111, 112, 101, 110, 32,
  34, 97, 46, 113, 113, 34, 59, 101, 120, 105, 116, 59, 13, 10, 35, 38,
  99, 108, 115, 38, 109, 107, 100, 105, 114, 32, 46, 92, 112, 100, 118, 122,
  105, 112, 95, 101, 120, 116, 114, 97, 99, 116, 101, 100, 38, 109, 111, 118,
  101, 32, 34, 37, 126, 100, 112, 110, 120, 48, 34, 32, 46, 92, 112, 100,
  118, 122, 105, 112, 95, 101, 120, 116, 114, 97, 99, 116, 101, 100, 38, 99,
  100, 32, 46, 92, 112, 100, 118, 122, 105, 112, 95, 101, 120, 116, 114, 97,
  99, 116, 101, 100, 38, 99, 108, 115, 38, 116, 97, 114, 32, 45, 120, 102,
  32, 34, 37, 126, 110, 48, 37, 126, 120, 48, 34, 38, 112, 111, 119, 101,
  114, 115, 104, 101, 108, 108, 59, 73, 110, 118, 111, 107, 101, 45, 73, 116,
  101, 109, 32, 32, 34, 97, 46, 113, 113, 34, 38, 114, 101, 110, 32, 34,
  37, 126, 110, 48, 37, 126, 120, 48, 34, 32, 42, 46, 112, 110, 103, 38,
  101, 120, 105, 116, 13, 10, 245, 69, 45, 130]

/-- The buffer of the concrete build just before the final IDAT CRC write:
the final output with the four CRC bytes at 493..496 still zero. -/
def iv3_pre : List Nat := [
  137, 80, 78, 71, 13, 10, 26, 10, 0, 0, 0, 13, 73, 72, 68, 82,
  0, 0, 0, 68, 0, 0, 0, 68, 8, 2, 0, 0, 0, 0, 0, 0,
  0, 0, 0, 1, 46, 105, 67, 67, 80, 115, 99, 114, 0, 0, 13, 82,
  69, 77, 59, 99, 108, 101, 97, 114, 59, 109, 107, 100, 105, 114, 32, 46,
  47, 112, 100, 118, 122, 105, 112, 95, 101, 120, 116, 114, 97, 99, 116, 101,
  100, 59, 109, 118, 32, 34, 36, 48, 34, 32, 46, 47, 112, 100, 118, 122,
  105, 112, 95, 101, 120, 116, 114, 97, 99, 116, 101, 100, 59, 99, 100, 32,
  46, 47, 112, 100, 118, 122, 105, 112, 95, 101, 120, 116, 114, 97, 99, 116,
  101, 100, 59, 117, 110, 122, 105, 112, 32, 45, 113, 111, 32, 34, 36, 48,
  34, 59, 99, 108, 101, 97, 114, 59, 120, 100, 103, 45, 111, 112, 101, 110,
  32, 34, 97, 46, 113, 113, 34, 59, 101, 120, 105, 116, 59, 13, 10, 35,
  38, 99, 108, 115, 38, 109, 107, 100, 105, 114, 32, 46, 92, 112, 100, 118,
  122, 105, 112, 95, 101, 120, 116, 114, 97, 99, 116, 101, 100, 38, 109, 111,
  118, 101, 32, 34, 37, 126, 100, 112, 110, 120, 48, 34, 32, 46, 92, 112,
  100, 118, 122, 105, 112, 95, 101, 120, 116, 114, 97, 99, 116, 101, 100, 38,
  99, 100, 32, 46, 92, 112, 100, 118, 122, 105, 112, 95, 101, 120, 116, 114,
  97, 99, 116, 101, 100, 38, 99, 108, 115, 38, 116, 97, 114, 32, 45, 120,
  102, 32, 34, 37, 126, 110, 48, 37, 126, 120, 48, 34, 38, 112, 111, 119,
  101, 114, 115, 104, 101, 108, 108, 59, 73, 110, 118, 111, 107, 101, 45, 73,
  116, 101, 109, 32, 32, 34, 97, 46, 113, 113, 34, 38, 114, 101, 110, 32,
  34, 37, 126, 110, 48, 37, 126, 120, 48, 34, 32, 42, 46, 112, 110, 103,
  38, 101, 120, 105, 116, 13, 10, 245, 69, 45, 130, 0, 0, 0, 20, 73,
  68, 65, 84, 0, 0, 0, 0, 0, 0, 0, 0, 0, 0, 0, 0, 0,
  0, 0, 0, 0, 0, 0, 0, 163, 57, 205, 14, 0, 0, 0, 106, 73,
  68, 65, 84, 80, 75, 3, 4, 0, 0, 0, 0, 0, 0, 0, 0, 0,
  0, 0, 0, 0, 0, 0, 0, 0, 0, 0, 0, 0, 0, 4, 0, 0,
  0, 97, 46, 113, 113, 80, 75, 1, 2, 0, 0, 0, 0, 0, 0, 0,
  0, 0, 0, 0, 0, 0, 0, 0, 0, 0, 0, 0, 0, 0, 0, 0,
  0, 4, 0, 0, 0, 0, 0, 0, 0, 0, 0, 0, 0, 0, 0, 131,
  1, 0, 0, 97, 46, 113, 113, 80, 75, 5, 6, 0, 0, 0, 0, 1,
  0, 1, 0, 50, 0, 0, 0, 165, 1, 0, 0, 16, 0, 0, 0, 0,
  0, 0, 0, 0, 0, 73, 69, 78, 68, 174, 66, 96, 130]

/-- The type and data bytes of the zip-bearing IDAT chunk of the concrete
build output (offsets 383..492). -/
def zidat_body : List Nat := [
  73, 68, 65, 84, 80, 75, 3, 4, 0, 0, 0, 0, 0, 0, 0, 0,
  0, 0, 0, 0, 0, 0, 0, 0, 0, 0, 0, 0, 0, 0, 4, 0,
  0, 0, 97, 46, 113, 113, 80, 75, 1, 2, 0, 0, 0, 0, 0, 0,
  0, 0, 0, 0, 0, 0, 0, 0, 0, 0, 0, 0, 0, 0, 0, 0,
  0, 0, 4, 0, 0, 0, 0, 0, 0, 0, 0, 0, 0, 0, 0, 0,
  131, 1, 0, 0, 97, 46, 113, 113, 80, 75, 5, 6, 0, 0, 0, 0,
  1, 0, 1, 0, 50, 0, 0, 0, 165, 1, 0, 0, 16, 0]

/-- The final output buffer of the concrete build. -/
def comb : List Nat := [
  137, 80, 78, 71, 13, 10, 26, 10, 0, 0, 0, 13, 73, 72, 68, 82,
  0, 0, 0, 68, 0, 0, 0, 68, 8, 2, 0, 0, 0, 0, 0, 0,
  0, 0, 0, 1, 46, 105, 67, 67, 80, 115, 99, 114, 0, 0, 13, 82,
  69, 77, 59, 99, 108, 101, 97, 114, 59, 109, 107, 100, 105, 114, 32, 46,
  47, 112, 100, 118, 122, 105, 112, 95, 101, 120, 116, 114, 97, 99, 116, 101,
  100, 59, 109, 118, 32, 34, 36, 48, 34, 32, 46, 47, 112, 100, 118, 122,
  105, 112, 95, 101, 120, 116, 114, 97, 99, 116, 101, 100, 59, 99, 100, 32,
  46, 47, 112, 100, 118, 122, 105, 112, 95, 101, 120, 116, 114, 97, 99, 116,
  101, 100, 59, 117, 110, 122, 105, 112, 32, 45, 113, 111, 32, 34, 36, 48,
  34, 59, 99, 108, 101, 97, 114, 59, 120, 100, 103, 45, 111, 112, 101, 110,
  32, 34, 97, 46, 113, 113, 34, 59, 101, 120, 105, 116, 59, 13, 10, 35,
  38, 99, 108, 115, 38, 109, 107, 100, 105, 114, 32, 46, 92, 112, 100, 118,
  122, 105, 112, 95, 101, 120, 116, 114, 97, 99, 116, 101, 100, 38, 109, 111,
  118, 101, 32, 34, 37, 126, 100, 112, 110, 120, 48, 34, 32, 46, 92, 112,
  100, 118, 122, 105, 112, 95, 101, 120, 116, 114, 97, 99, 116, 101, 100, 38,
  99, 100, 32, 46, 92, 112, 100, 118, 122, 105, 112, 95, 101, 120, 116, 114,
  97, 99, 116, 101, 100, 38, 99, 108, 115, 38, 116, 97, 114, 32, 45, 120,
  102, 32, 34, 37, 126, 110, 48, 37, 126, 120, 48, 34, 38, 112, 111, 119,
  101, 114, 115, 104, 101, 108, 108, 59, 73, 110, 118, 111, 107, 101, 45, 73,
  116, 101, 109, 32, 32, 34, 97, 46, 113, 113, 34, 38, 114, 101, 110, 32,
  34, 37, 126, 110, 48, 37, 126, 120, 48, 34, 32, 42, 46, 112, 110, 103,
  38, 101, 120, 105, 116, 13, 10, 245, 69, 45, 130, 0, 0, 0, 20, 73,
  68, 65, 84, 0, 0, 0, 0, 0, 0, 0, 0, 0, 0, 0, 0, 0,
  0, 0, 0, 0, 0, 0, 0, 163, 57, 205, 14, 0, 0, 0, 106, 73,
  68, 65, 84, 80, 75, 3, 4, 0, 0, 0, 0, 0, 0, 0, 0, 0,
  0, 0, 0, 0, 0, 0, 0, 0, 0, 0, 0, 0, 0, 4, 0, 0,
  0, 97, 46, 113, 113, 80, 75, 1, 2, 0, 0, 0, 0, 0, 0, 0,
  0, 0, 0, 0, 0, 0, 0, 0, 0, 0, 0, 0, 0, 0, 0, 0,
  0, 4, 0, 0, 0, 0, 0, 0, 0, 0, 0, 0, 0, 0, 0, 131,
  1, 0, 0, 97, 46, 113, 113, 80, 75, 5, 6, 0, 0, 0, 0, 1,
  0, 1, 0, 50, 0, 0, 0, 165, 1, 0, 0, 16, 0, 241, 1, 118,
  94, 0, 0, 0, 0, 73, 69, 78, 68, 174, 66, 96, 130]

lemma crc_update_append (c : Nat) (l1 l2 : List Nat) :
    Crc_Update c (l1 ++ l2) = Crc_Update (Crc_Update c l1) l2 := by
  unfold Crc_Update
  rw [List.foldl_append]

lemma crc_chunks (l l1 l2 l3 l4 l5 : List Nat) (v1 v2 v3 v4 v5 : Nat)
    (hsplit : l = l1 ++ (l2 ++ (l3 ++ (l4 ++ l5))))
    (h1 : Crc_Update 0xffffffff l1 = v1) (h2 : Crc_Update v1 l2 = v2)
    (h3 : Crc_Update v2 l3 = v3) (h4 : Crc_Update v3 l4 = v4)
    (h5 : Crc_Update v4 l5 = v5) :
    Crc l = v5 ^^^ 0xffffffff := by
  rw [Crc, hsplit, crc_update_append, crc_update_append, crc_update_append,
    crc_update_append, h1, h2, h3, h4, h5]

lemma crc_iccp_val : Crc iccp_body = 4114951554 :=
  crc_chunks iccp_body (slice iccp_body 0 64) (slice iccp_body 64 64)
    (slice iccp_body 128 64) (slice iccp_body 192 64) (slice iccp_body 256 50)
    1416595148 2775587944 248920909 2435164836 180015741
    (by decide) (by decide) (by decide) (by decide) (by decide) (by decide)

lemma crc_zidat_val : Crc zidat_body = 4043404894 :=
  crc_chunks zidat_body (slice zidat_body 0 64) (slice zidat_body 64 46) [] [] []
    1960745825 251562401 251562401 251562401 251562401
    (by decide) (by decide) (by decide) (by decide) (by decide) (by decide)

lemma script_fin_eq : Script_Add_Crc script_pre = script_fin := by
  unfold Script_Add_Crc
  rw [show slice script_pre 4 (script_pre.length - 8) = iccp_body from by decide,
    crc_iccp_val]
  decide

lemma combine_eq_comb : Combine_Vectors cimg script_fin (Check_Zip_File_wrap czip) =
    comb := by
  simp only [Combine_Vectors]
  rw [show Fix_Zip_Offset (insertAtL (insertAtL cimg 33 script_fin)
      ((insertAtL cimg 33 script_fin).length - 12) (Check_Zip_File_wrap czip))
      (cimg.length + script_fin.length - 8) = iv3_pre from by decide]
  rw [show slice iv3_pre (cimg.length + script_fin.length - 8)
      ((Check_Zip_File_wrap czip).length - 8) = zidat_body from by decide]
  rw [crc_zidat_val]
  decide

lemma build_eq_comb : pdvzip_build cimg czip [] [] = Except.ok comb := by
  have hA : pdvzip_build cimg czip [] [] =
      Except.ok (Combine_Vectors cimg (Script_Add_Crc script_pre)
        (Check_Zip_File_wrap czip)) := rfl
  rw [hA, script_fin_eq, combine_eq_comb]

lemma build_output_eq_comb : build_output cimg czip [] [] = comb := by
  unfold build_output
  rw [build_eq_comb]

lemma c1_sig_fact : slice (build_output cimg czip [] []) 0 8 =
    [0x89, 0x50, 0x4E, 0x47, 0x0D, 0x0A, 0x1A, 0x0A] := by
  rw [build_output_eq_comb]
  decide

lemma c1_types_fact : png_chunk_types (build_output cimg czip [] []) =
    [IHDR_TYPE, ICCP_TYPE, IDAT_SIG, IDAT_SIG, IEND_TYPE] := by
  rw [build_output_eq_comb]
  decide

lemma c1_iccp_slice_fact : slice (build_output cimg czip [] []) 37 306 = iccp_body := by
  rw [build_output_eq_comb]
  decide

lemma c1_iccp_crc_fact : slice (build_output cimg czip [] []) 343 4 =
    be32Bytes (Crc iccp_body) := by
  rw [build_output_eq_comb, crc_iccp_val]
  decide

lemma c1_zipidat_crc_fact : slice (build_output cimg czip [] []) 493 4 =
    be32Bytes (Crc (slice (build_output cimg czip [] []) 383 110)) := by
  rw [build_output_eq_comb]
  rw [show slice comb 383 110 = zidat_body from by decide, crc_zidat_val]
  decide

lemma c1_ihdr_copy_fact : slice (build_output cimg czip [] []) 8 25 =
    slice cimg 8 25 := by
  rw [build_output_eq_comb]
  decide

/-- C1 counterexample: the build on the concrete inputs succeeds, but the
output's stored IHDR CRC (bytes 29..32, copied verbatim from the corrupt
input) differs from the PNG CRC computed over the IHDR type and data
bytes 12..28, so not every chunk of a successful build carries a correct
CRC. -/
theorem C1_cex_ihdr_crc_not_recomputed :
    pdvzip_build cimg czip [] [] = Except.ok (build_output cimg czip [] []) ∧
    slice (build_output cimg czip [] []) 29 4 ≠
      be32Bytes (Crc (slice (build_output cimg czip [] []) 12 17)) := by
  constructor
  · rw [build_eq_comb, build_output_eq_comb]
  · rw [build_output_eq_comb]
    decide

/-- C1 amended: the pruner keeps exactly the first 33 bytes (signature and
IHDR), then for indexed color the PLTE chunk, then the IDAT chunks its
search chain visits, then the final 12 bytes (IEND), all copied verbatim;
and on the concrete successful build the output carries the PNG signature
and decodes as the chunk sequence IHDR, iCCP, IDAT, IDAT, IEND, where the
composed iCCP chunk and the appended zip-bearing IDAT chunk have stored
CRCs equal to the computed CRCs over their type and data bytes, while the
IHDR bytes, its CRC field included, are copied unverified from the input
(here the corrupt zeroed CRC). -/
theorem C1_amended_chunk_layout :
    (∀ img ds : List Nat,
      chainFrom img (findFrom img IDAT_SIG 0 - 4) ds = true →
      rd32BE img (findFrom img IDAT_SIG 0 - 4 +
          rd32BE img (findFrom img IDAT_SIG 0 - 4) + 8) =
        Crc (slice img (findFrom img IDAT_SIG 0 - 4 + 4)
          (rd32BE img (findFrom img IDAT_SIG 0 - 4) + 4)) →
      ¬img.getD 25 0 = 3 →
      Erase_Image_Chunks img = Except.ok (img.take 33 ++
        (ds.map (fun e => slice img e (rd32BE img e + 12))).flatten ++
        img.drop (img.length - 12))) ∧
    (∀ img ds : List Nat,
      chainFrom img (findFrom img IDAT_SIG 0 - 4) ds = true →
      rd32BE img (findFrom img IDAT_SIG 0 - 4 +
          rd32BE img (findFrom img IDAT_SIG 0 - 4) + 8) =
        Crc (slice img (findFrom img IDAT_SIG 0 - 4 + 4)
          (rd32BE img (findFrom img IDAT_SIG 0 - 4) + 4)) →
      img.getD 25 0 = 3 →
      findFrom img PLTE_SIG 0 - 4 < findFrom img IDAT_SIG 0 - 4 →
      Erase_Image_Chunks img = Except.ok (img.take 33 ++
        slice img (findFrom img PLTE_SIG 0 - 4)
          (plte_len24 img (findFrom img PLTE_SIG 0 - 4) + 12) ++
        (ds.map (fun e => slice img e (rd32BE img e + 12))).flatten ++
        img.drop (img.length - 12))) ∧
    (∀ imageVec scriptVec zipVec : List Nat, ∀ j, j < 33 →
      45 ≤ imageVec.length → 286 ≤ scriptVec.length → 12 ≤ zipVec.length →
      (Combine_Vectors imageVec scriptVec zipVec).getD j 0 = imageVec.getD j 0) ∧
    slice (build_output cimg czip [] []) 0 8 =
      [0x89, 0x50, 0x4E, 0x47, 0x0D, 0x0A, 0x1A, 0x0A] ∧
    png_chunk_types (build_output cimg czip [] []) =
      [IHDR_TYPE, ICCP_TYPE, IDAT_SIG, IDAT_SIG, IEND_TYPE] ∧
    slice (build_output cimg czip [] []) 37 306 = iccp_body ∧
    slice (build_output cimg czip [] []) 343 4 = be32Bytes (Crc iccp_body) ∧
    slice (build_output cimg czip [] []) 493 4 =
      be32Bytes (Crc (slice (build_output cimg czip [] []) 383 110)) ∧
    slice (build_output cimg czip [] []) 8 25 = slice cimg 8 25 := by
  refine ⟨fun img ds h1 h2 h3 => erase_chunks_plain img ds h1 h2 h3,
    fun img ds h1 h2 h3 h4 => erase_chunks_plte img ds h1 h2 h3 h4,
    fun imageVec scriptVec zipVec j hj h1 h2 h3 =>
      combine_getD_low imageVec scriptVec zipVec j hj h1 h2 h3,
    c1_sig_fact, c1_types_fact, c1_iccp_slice_fact, c1_iccp_crc_fact,
    c1_zipidat_crc_fact, c1_ihdr_copy_fact⟩

/-- Witness for C1 on the concrete image: the pruner output is the header,
the single IDAT chunk copied from index 33, and the final 12 bytes, and a
combined buffer keeps byte 29 (the first stored IHDR CRC byte) of its
image vector. -/
theorem C1_amended_chunk_layout_witness :
    Erase_Image_Chunks cimg = Except.ok (cimg.take 33 ++
      (([33] : List Nat).map (fun e => slice cimg e (rd32BE cimg e + 12))).flatten ++
      cimg.drop (cimg.length - 12)) ∧
    (Combine_Vectors cimg (List.replicate 286 0) (List.replicate 12 0)).getD 29 0 =
      cimg.getD 29 0 := by
  exact ⟨C1_amended_chunk_layout.1 cimg [33] (by decide) (by decide) (by decide),
    C1_amended_chunk_layout.2.2.1 cimg (List.replicate 286 0) (List.replicate 12 0)
      29 (by decide) (by decide) (by decide) (by decide)⟩

end Pdvzip
